import Mathlib

/-!
# hexdef: the domain value-object catalog

A shallow embedding of the record classes under `src/schemas/models`
(`c_hex::domain::model` and `d_hexagon::domain::model`) and the properties
their natural-language specification states about them.

Conventions of the embedding

* `int` and `long` fields are `Int`; no member function performs arithmetic,
  so every machine integer is a particular `Int` and every statement
  quantified over `Int` covers it.
* `double` is `Double`, an IEEE-754 binary64 bit pattern, and `float` is
  `Float32`, a binary32 bit pattern.  The records only store and return
  them.  A floating-point literal of the source (`0.0`, `0.01`) is the
  pattern nearest to the decimal, ties to even.
* `std::string` is `String`, `std::vector<T>` is `List T`.
* A `void` member function that assigns fields is a function returning the
  updated record.  `std::cout` is a `Sink`, the sequence of lines written
  so far; a member function that writes takes the sink and returns it.
-/

namespace Hexdef

/-! ## Primitive types -/

/-- A C++ `double`: the 64 bits of an IEEE-754 binary64 value. -/
structure Double where
  bits : Fin 18446744073709551616
  deriving DecidableEq, Repr

/-- A C++ `float`: the 32 bits of an IEEE-754 binary32 value. -/
structure Float32 where
  bits : Fin 4294967296
  deriving DecidableEq, Repr

/-- Rounds the non-negative fraction `n / d` to the nearest integer, ties to even. -/
def roundHalfEven (n d : Nat) : Nat :=
  let q := n / d
  let r := n % d
  if 2 * r < d then q
  else if d < 2 * r then q + 1
  else if q % 2 = 0 then q else q + 1

/-- The position of the leading binary digit of `n`, that is `⌊log₂ n⌋`
(and `0` for `n < 2`), by halving; `fuel = n` halvings always suffice. -/
def floorLog2 : Nat → Nat → Nat
  | 0, _ => 0
  | fuel + 1, n => if n < 2 then 0 else floorLog2 fuel (n / 2) + 1

/-- The binary exponent of the positive fraction `n / d`: the `e` with
`2 ^ e ≤ n / d < 2 ^ (e + 1)`. -/
def binaryExponent (n d : Nat) : Int :=
  let e0 : Int := (floorLog2 n n : Int) - (floorLog2 d d : Int)
  if n * 2 ^ (-e0).toNat < d * 2 ^ e0.toNat then e0 - 1 else e0

/-- The binary64 bit pattern nearest to the non-negative fraction `n / d`
(round to nearest, ties to even; subnormals below `2 ^ -1022`, infinity on
overflow).  The pattern is `(E + 1022) * 2 ^ 52 + m` where `E` is the
exponent clamped below at `-1022` and `m` the fraction scaled by
`2 ^ (52 - E)` and rounded, so a carry out of the significand moves to the
next exponent by itself. -/
def binary64Bits (n d : Nat) : Nat :=
  if n = 0 ∨ d = 0 then 0
  else
    let e : Int := max (binaryExponent n d) (-1022)
    let s : Int := 52 - e
    let m := roundHalfEven (n * 2 ^ s.toNat) (d * 2 ^ (-s).toNat)
    min ((e + 1022).toNat * 2 ^ 52 + m) 0x7FF0000000000000

/-- A decimal literal `m * 10 ^ (± e)` of the source, as the `double` the
compiler stores for it. -/
def Double.ofScientific (m : Nat) (s : Bool) (e : Nat) : Double :=
  ⟨Fin.ofNat (if s then binary64Bits m (10 ^ e) else binary64Bits (m * 10 ^ e) 1)⟩

instance : OfScientific Double := ⟨Double.ofScientific⟩

/-- Unary minus on a `double` flips the sign bit. -/
instance : Neg Double := ⟨fun x => ⟨Fin.ofNat (Nat.xor x.bits.val 0x8000000000000000)⟩⟩

/-- The sink behind `std::cout`: the lines written so far, oldest first.
One entry is the text inserted up to one `std::endl`; the inserted text is
kept as it is, whatever characters it holds. -/
abbrev Sink := List String

/-- The statement `std::cout << ... << std::endl` with the inserted text
`line`: one more line at the end of the sink. -/
def Sink.endl (cout : Sink) (line : String) : Sink := cout ++ [line]

/-- The library function `std::to_string(int)`: the base-10 digits of the
value, preceded by `-` when it is negative. -/
def to_string (i : Int) : String :=
  match i with
  | Int.ofNat n => String.mk (Nat.toDigits 10 n)
  | Int.negSucc n => "-" ++ String.mk (Nat.toDigits 10 (n + 1))


/-! ## Category (`Category.hpp`, `Category.cpp`) -/

/-- The private members of `class Category`, in declaration order. -/
structure Category where
  id : Int
  title : String
  deriving DecidableEq, Repr

/-- The constructor `Category::Category(int id, const std::string& title) : id(id),
title(title)`. -/
def Category.ctor (id : Int) (title : String) : Category :=
  { id := id, title := title }

/-- The constructor `Category::Category() : id(0)`; `title` is default-initialised to the empty
string. -/
def Category.ctorDefault : Category :=
  { id := 0, title := "" }

/-- The reader `int Category::getId() const`. -/
def Category.getId (self : Category) : Int := self.id

/-- The reader `std::string Category::getTitle() const`. -/
def Category.getTitle (self : Category) : String := self.title

/-- The member function `void Category::setTitle(const std::string& newTitle) { title = newTitle;
}`. -/
def Category.setTitle (self : Category) (newTitle : String) : Category :=
  { self with title := newTitle }

/-- One call of a non-const public member function of `Category`. -/
inductive Category.Op where
  | setTitle (newTitle : String)
  deriving DecidableEq, Repr

/-- The record after the call `op`. -/
def Category.Op.apply : Category.Op → Category → Category
  | .setTitle newTitle, self => self.setTitle newTitle

/-- The record after the calls `ops`, made in order. -/
def Category.run (ops : List Category.Op) (self : Category) : Category :=
  ops.foldl (fun s op => op.apply s) self

/-! ## Product (`Product.hpp`, `Product.cpp`) -/

/-- The private members of `class Product`, in declaration order. -/
structure Product where
  id : Int
  name : String
  price : Double
  inStock : Bool
  deriving DecidableEq, Repr

/-- The constructor `Product::Product(int id, const std::string& name, double price, bool inStock)
: id(id), name(name), price(price), inStock(inStock)`. -/
def Product.ctor (id : Int) (name : String) (price : Double) (inStock : Bool) : Product :=
  { id := id, name := name, price := price, inStock := inStock }

/-- The constructor `Product::Product() : id(0), price(0.0), inStock(false)`. -/
def Product.ctorDefault : Product :=
  { id := 0, name := "", price := 0.0, inStock := false }

/-- The reader `int Product::getId() const`. -/
def Product.getId (self : Product) : Int := self.id

/-- The reader `std::string Product::getName() const`. -/
def Product.getName (self : Product) : String := self.name

/-- The reader `double Product::getPrice() const`. -/
def Product.getPrice (self : Product) : Double := self.price

/-- The reader `bool Product::isInStock() const`. -/
def Product.isInStock (self : Product) : Bool := self.inStock

/-- The member function `void Product::setName(const std::string& newName) { name = newName; }`. -/
def Product.setName (self : Product) (newName : String) : Product :=
  { self with name := newName }

/-- The member function `void Product::setPrice(double newPrice) { price = newPrice; }`. -/
def Product.setPrice (self : Product) (newPrice : Double) : Product :=
  { self with price := newPrice }

/-- The member function `void Product::setInStock(bool newInStock) { inStock = newInStock; }`. -/
def Product.setInStock (self : Product) (newInStock : Bool) : Product :=
  { self with inStock := newInStock }

/-- One call of a non-const public member function of `Product`. -/
inductive Product.Op where
  | setName (newName : String)
  | setPrice (newPrice : Double)
  | setInStock (newInStock : Bool)
  deriving DecidableEq, Repr

/-- The record after the call `op`. -/
def Product.Op.apply : Product.Op → Product → Product
  | .setName newName, self => self.setName newName
  | .setPrice newPrice, self => self.setPrice newPrice
  | .setInStock newInStock, self => self.setInStock newInStock

/-- The record after the calls `ops`, made in order. -/
def Product.run (ops : List Product.Op) (self : Product) : Product :=
  ops.foldl (fun s op => op.apply s) self

/-! ## Order (`Order.hpp`, `Order.cpp`) -/

/-- The private members of `class Order`, in declaration order. -/
structure Order where
  orderId : String
  totalAmount : Double
  itemCount : Int
  deriving DecidableEq, Repr

/-- The constructor `Order::Order(const std::string& orderId, double totalAmount, int itemCount)
: orderId(orderId), totalAmount(totalAmount), itemCount(itemCount)`. -/
def Order.ctor (orderId : String) (totalAmount : Double) (itemCount : Int) : Order :=
  { orderId := orderId, totalAmount := totalAmount, itemCount := itemCount }

/-- The constructor `Order::Order() : totalAmount(0.0), itemCount(0)`. -/
def Order.ctorDefault : Order :=
  { orderId := "", totalAmount := 0.0, itemCount := 0 }

/-- The reader `std::string Order::getOrderId() const`. -/
def Order.getOrderId (self : Order) : String := self.orderId

/-- The reader `double Order::getTotalAmount() const`. -/
def Order.getTotalAmount (self : Order) : Double := self.totalAmount

/-- The reader `int Order::getItemCount() const`. -/
def Order.getItemCount (self : Order) : Int := self.itemCount

/-- The member function `void Order::setTotalAmount(double amount) { totalAmount = amount; }`. -/
def Order.setTotalAmount (self : Order) (amount : Double) : Order :=
  { self with totalAmount := amount }

/-- The member function `void Order::setItemCount(int count) { itemCount = count; }`. -/
def Order.setItemCount (self : Order) (count : Int) : Order :=
  { self with itemCount := count }

/-- One call of a non-const public member function of `Order`. -/
inductive Order.Op where
  | setTotalAmount (amount : Double)
  | setItemCount (count : Int)
  deriving DecidableEq, Repr

/-- The record after the call `op`. -/
def Order.Op.apply : Order.Op → Order → Order
  | .setTotalAmount amount, self => self.setTotalAmount amount
  | .setItemCount count, self => self.setItemCount count

/-- The record after the calls `ops`, made in order. -/
def Order.run (ops : List Order.Op) (self : Order) : Order :=
  ops.foldl (fun s op => op.apply s) self

/-! ## Invoice (`Invoice.hpp`, `Invoice.cpp`) -/

/-- The private members of `class Invoice`, in declaration order. -/
structure Invoice where
  invoiceNumber : String
  issueDate : String
  isPaid : Bool
  deriving DecidableEq, Repr

/-- The constructor `Invoice::Invoice(const std::string& number, const std::string& date, bool paid)
: invoiceNumber(number), issueDate(date), isPaid(paid)`. -/
def Invoice.ctor (number : String) (date : String) (paid : Bool) : Invoice :=
  { invoiceNumber := number, issueDate := date, isPaid := paid }

/-- The constructor `Invoice::Invoice() : isPaid(false)`. -/
def Invoice.ctorDefault : Invoice :=
  { invoiceNumber := "", issueDate := "", isPaid := false }

/-- The reader `std::string Invoice::getInvoiceNumber() const`. -/
def Invoice.getInvoiceNumber (self : Invoice) : String := self.invoiceNumber

/-- The reader `std::string Invoice::getIssueDate() const`. -/
def Invoice.getIssueDate (self : Invoice) : String := self.issueDate

/-- The reader `bool Invoice::getIsPaid() const`. -/
def Invoice.getIsPaid (self : Invoice) : Bool := self.isPaid

/-- The member function `void Invoice::setPaid(bool paid) { isPaid = paid; }`. -/
def Invoice.setPaid (self : Invoice) (paid : Bool) : Invoice :=
  { self with isPaid := paid }

/-- One call of a non-const public member function of `Invoice`. -/
inductive Invoice.Op where
  | setPaid (paid : Bool)
  deriving DecidableEq, Repr

/-- The record after the call `op`. -/
def Invoice.Op.apply : Invoice.Op → Invoice → Invoice
  | .setPaid paid, self => self.setPaid paid

/-- The record after the calls `ops`, made in order. -/
def Invoice.run (ops : List Invoice.Op) (self : Invoice) : Invoice :=
  ops.foldl (fun s op => op.apply s) self

/-! ## Customer (`Customer.hpp`, `Customer.cpp`) -/

/-- The private members of `class Customer`, in declaration order. -/
structure Customer where
  customerId : Int
  firstName : String
  lastName : String
  email : String
  age : Int
  deriving DecidableEq, Repr

/-- The constructor `Customer::Customer(long id, const std::string& first, const std::string& last,
const std::string& email, int age)
: customerId(id), firstName(first), lastName(last), email(email), age(age)`. -/
def Customer.ctor (id : Int) (first : String) (last : String) (email : String) (age : Int) :
    Customer :=
  { customerId := id, firstName := first, lastName := last, email := email, age := age }

/-- The constructor `Customer::Customer() : customerId(0), age(0)`. -/
def Customer.ctorDefault : Customer :=
  { customerId := 0, firstName := "", lastName := "", email := "", age := 0 }

/-- The reader `long Customer::getCustomerId() const`. -/
def Customer.getCustomerId (self : Customer) : Int := self.customerId

/-- The reader `std::string Customer::getFirstName() const`. -/
def Customer.getFirstName (self : Customer) : String := self.firstName

/-- The reader `std::string Customer::getLastName() const`. -/
def Customer.getLastName (self : Customer) : String := self.lastName

/-- The reader `std::string Customer::getEmail() const`. -/
def Customer.getEmail (self : Customer) : String := self.email

/-- The reader `int Customer::getAge() const`. -/
def Customer.getAge (self : Customer) : Int := self.age

/-- The member function `void Customer::setEmail(const std::string& newEmail) { email = newEmail;
}`. -/
def Customer.setEmail (self : Customer) (newEmail : String) : Customer :=
  { self with email := newEmail }

/-- The member function `void Customer::setAge(int newAge) { age = newAge; }`. -/
def Customer.setAge (self : Customer) (newAge : Int) : Customer :=
  { self with age := newAge }

/-- One call of a non-const public member function of `Customer`. -/
inductive Customer.Op where
  | setEmail (newEmail : String)
  | setAge (newAge : Int)
  deriving DecidableEq, Repr

/-- The record after the call `op`. -/
def Customer.Op.apply : Customer.Op → Customer → Customer
  | .setEmail newEmail, self => self.setEmail newEmail
  | .setAge newAge, self => self.setAge newAge

/-- The record after the calls `ops`, made in order. -/
def Customer.run (ops : List Customer.Op) (self : Customer) : Customer :=
  ops.foldl (fun s op => op.apply s) self

/-! ## User (`deneme.h`, `User.cpp`) -/

/-- The private members of `class User`, in declaration order. -/
structure User where
  id : Int
  username : String
  email : String
  active : Bool
  deriving DecidableEq, Repr

/-- The constructor `User::User(int id, const std::string& username, const std::string& email)
: id(id), username(username), email(email), active(true)`. -/
def User.ctor (id : Int) (username : String) (email : String) : User :=
  { id := id, username := username, email := email, active := true }

/-- The constructor `User::User() : id(0), active(false)`. -/
def User.ctorDefault : User :=
  { id := 0, username := "", email := "", active := false }

/-- The reader `int User::getId() const`. -/
def User.getId (self : User) : Int := self.id

/-- The reader `std::string User::getUsername() const`. -/
def User.getUsername (self : User) : String := self.username

/-- The reader `std::string User::getEmail() const`. -/
def User.getEmail (self : User) : String := self.email

/-- The reader `bool User::isActive() const`. -/
def User.isActive (self : User) : Bool := self.active

/-- The member function `void User::setUsername(const std::string& newUsername) { username =
newUsername; }`. -/
def User.setUsername (self : User) (newUsername : String) : User :=
  { self with username := newUsername }

/-- The member function `void User::setEmail(const std::string& newEmail) { email = newEmail; }`. -/
def User.setEmail (self : User) (newEmail : String) : User :=
  { self with email := newEmail }

/-- The member function `void User::activate()`: `active = true;` then
`std::cout << "User " << username << " activated." << std::endl;`. -/
def User.activate (self : User) (cout : Sink) : User × Sink :=
  ({ self with active := true }, cout.endl ("User " ++ self.username ++ " activated."))

/-- The member function `void User::deactivate()`: `active = false;` then
`std::cout << "User " << username << " deactivated." << std::endl;`. -/
def User.deactivate (self : User) (cout : Sink) : User × Sink :=
  ({ self with active := false }, cout.endl ("User " ++ self.username ++ " deactivated."))

/-- The member function `std::string User::toString() const`: the chain of
`+` of the source, left to right. -/
def User.toString (self : User) : String :=
  "User\x7bid=" ++ to_string self.id ++
    ", username='" ++ self.username ++ "'" ++
    ", email='" ++ self.email ++ "'" ++
    ", active=" ++ (if self.active then "true" else "false") ++ "\x7d"

/-- One call of a public member function of `User`.  The const member
functions are listed too: their result is dropped, what a call does to the
record and to the sink is what `apply` keeps. -/
inductive User.Op where
  | getId
  | getUsername
  | getEmail
  | isActive
  | setUsername (newUsername : String)
  | setEmail (newEmail : String)
  | activate
  | deactivate
  | toString
  deriving DecidableEq, Repr

/-- The record and the sink after the call `op`.  Only `activate` and
`deactivate` mention `std::cout`; the const member functions assign
nothing. -/
def User.Op.apply : User.Op → User × Sink → User × Sink
  | .getId, (self, cout) => (self, cout)
  | .getUsername, (self, cout) => (self, cout)
  | .getEmail, (self, cout) => (self, cout)
  | .isActive, (self, cout) => (self, cout)
  | .setUsername newUsername, (self, cout) => (self.setUsername newUsername, cout)
  | .setEmail newEmail, (self, cout) => (self.setEmail newEmail, cout)
  | .activate, (self, cout) => self.activate cout
  | .deactivate, (self, cout) => self.deactivate cout
  | .toString, (self, cout) => (self, cout)

/-- The record and the sink after the calls `ops`, made in order. -/
def User.run (ops : List User.Op) (start : User × Sink) : User × Sink :=
  ops.foldl (fun s op => op.apply s) start

/-- A constructor call of `User` with its arguments. -/
inductive User.New where
  | value (id : Int) (username : String) (email : String)
  | default
  deriving DecidableEq, Repr

/-- The constructed record and the sink after the constructor call; neither
constructor mentions `std::cout`. -/
def User.New.apply : User.New → Sink → User × Sink
  | .value id username email, cout => (User.ctor id username email, cout)
  | .default, cout => (User.ctorDefault, cout)

/-! ## GameMap (`GameMap.hpp`, `GameMap.cpp`) -/

/-- The private members of `class GameMap`, in declaration order. -/
structure GameMap where
  mapId : Int
  name : String
  terrain : List (List Int)
  objectPlacement : List (List String)
  difficulty : Int
  maxPlayers : Int
  isRanked : Bool
  tags : List String
  deriving DecidableEq, Repr

/-- The constructor `GameMap::GameMap(long id, const std::string& name,
const std::vector<std::vector<int>>& terrain, int diff, int maxP, bool ranked)
: mapId(id), name(name), terrain(terrain), difficulty(diff), maxPlayers(maxP),
isRanked(ranked)`; `objectPlacement` and `tags` are default-initialised. -/
def GameMap.ctor (id : Int) (name : String) (terrain : List (List Int))
    (diff : Int) (maxP : Int) (ranked : Bool) : GameMap :=
  { mapId := id, name := name, terrain := terrain, objectPlacement := [],
    difficulty := diff, maxPlayers := maxP, isRanked := ranked, tags := [] }

/-- The constructor `GameMap::GameMap() : mapId(0), difficulty(0), maxPlayers(0),
isRanked(false)`. -/
def GameMap.ctorDefault : GameMap :=
  { mapId := 0, name := "", terrain := [], objectPlacement := [],
    difficulty := 0, maxPlayers := 0, isRanked := false, tags := [] }

/-- The reader `long GameMap::getMapId() const`. -/
def GameMap.getMapId (self : GameMap) : Int := self.mapId

/-- The reader `std::string GameMap::getName() const`. -/
def GameMap.getName (self : GameMap) : String := self.name

/-- The reader `std::vector<std::vector<int>> GameMap::getTerrain() const`. -/
def GameMap.getTerrain (self : GameMap) : List (List Int) := self.terrain

/-- The reader `std::vector<std::vector<std::string>> GameMap::getObjectPlacement() const`. -/
def GameMap.getObjectPlacement (self : GameMap) : List (List String) := self.objectPlacement

/-- The reader `int GameMap::getDifficulty() const`. -/
def GameMap.getDifficulty (self : GameMap) : Int := self.difficulty

/-- The reader `bool GameMap::getIsRanked() const`. -/
def GameMap.getIsRanked (self : GameMap) : Bool := self.isRanked

/-- The member function `void GameMap::setTerrain(const std::vector<std::vector<int>>& t) {
terrain = t; }`. -/
def GameMap.setTerrain (self : GameMap) (t : List (List Int)) : GameMap :=
  { self with terrain := t }

/-- The member function `void GameMap::setTags(const std::vector<std::string>& t) { tags = t; }`. -/
def GameMap.setTags (self : GameMap) (t : List String) : GameMap :=
  { self with tags := t }

/-- One call of a non-const public member function of `GameMap`. -/
inductive GameMap.Op where
  | setTerrain (t : List (List Int))
  | setTags (t : List String)
  deriving DecidableEq, Repr

/-- The record after the call `op`. -/
def GameMap.Op.apply : GameMap.Op → GameMap → GameMap
  | .setTerrain t, self => self.setTerrain t
  | .setTags t, self => self.setTags t

/-- The record after the calls `ops`, made in order. -/
def GameMap.run (ops : List GameMap.Op) (self : GameMap) : GameMap :=
  ops.foldl (fun s op => op.apply s) self

/-! ## ComplexSignal (`ComplexSignal.hpp`, `ComplexSignal.cpp`) -/

/-- The private members of `class ComplexSignal`, in declaration order. -/
structure ComplexSignal where
  signalId : String
  timestamp : Int
  rawWaveform : List Double
  spectrogram : List (List Double)
  frequencyBands : List Float32
  isValid : Bool
  sourceDevice : String
  gain : Double
  deriving DecidableEq, Repr

/-- The constructor `ComplexSignal::ComplexSignal(const std::string& id, long time,
const std::vector<double>& wave, const std::vector<std::vector<double>>& spec,
const std::vector<float>& bands, bool valid, const std::string& device, double gain)
: signalId(id), timestamp(time), rawWaveform(wave), spectrogram(spec),
frequencyBands(bands), isValid(valid), sourceDevice(device), gain(gain)`. -/
def ComplexSignal.ctor (id : String) (time : Int) (wave : List Double)
    (spec : List (List Double)) (bands : List Float32) (valid : Bool) (device : String)
    (gain : Double) : ComplexSignal :=
  { signalId := id, timestamp := time, rawWaveform := wave, spectrogram := spec,
    frequencyBands := bands, isValid := valid, sourceDevice := device, gain := gain }

/-- The constructor `ComplexSignal::ComplexSignal() : timestamp(0), isValid(false), gain(0.0)`. -/
def ComplexSignal.ctorDefault : ComplexSignal :=
  { signalId := "", timestamp := 0, rawWaveform := [], spectrogram := [],
    frequencyBands := [], isValid := false, sourceDevice := "", gain := 0.0 }

/-- The reader `std::string ComplexSignal::getSignalId() const`. -/
def ComplexSignal.getSignalId (self : ComplexSignal) : String := self.signalId

/-- The reader `long ComplexSignal::getTimestamp() const`. -/
def ComplexSignal.getTimestamp (self : ComplexSignal) : Int := self.timestamp

/-- The reader `std::vector<double> ComplexSignal::getRawWaveform() const`. -/
def ComplexSignal.getRawWaveform (self : ComplexSignal) : List Double := self.rawWaveform

/-- The reader `std::vector<std::vector<double>> ComplexSignal::getSpectrogram() const`. -/
def ComplexSignal.getSpectrogram (self : ComplexSignal) : List (List Double) :=
  self.spectrogram

/-- The reader `bool ComplexSignal::getIsValid() const`. -/
def ComplexSignal.getIsValid (self : ComplexSignal) : Bool := self.isValid

/-- The reader `std::string ComplexSignal::getSourceDevice() const`. -/
def ComplexSignal.getSourceDevice (self : ComplexSignal) : String := self.sourceDevice

/-- The member function `void ComplexSignal::setSpectrogram(const
std::vector<std::vector<double>>& spec)
{ spectrogram = spec; }`. -/
def ComplexSignal.setSpectrogram (self : ComplexSignal) (spec : List (List Double)) :
    ComplexSignal :=
  { self with spectrogram := spec }

/-- The member function `void ComplexSignal::setGain(double newGain) { gain = newGain; }`. -/
def ComplexSignal.setGain (self : ComplexSignal) (newGain : Double) : ComplexSignal :=
  { self with gain := newGain }

/-- One call of a non-const public member function of `ComplexSignal`. -/
inductive ComplexSignal.Op where
  | setSpectrogram (spec : List (List Double))
  | setGain (newGain : Double)
  deriving DecidableEq, Repr

/-- The record after the call `op`. -/
def ComplexSignal.Op.apply : ComplexSignal.Op → ComplexSignal → ComplexSignal
  | .setSpectrogram spec, self => self.setSpectrogram spec
  | .setGain newGain, self => self.setGain newGain

/-- The record after the calls `ops`, made in order. -/
def ComplexSignal.run (ops : List ComplexSignal.Op) (self : ComplexSignal) : ComplexSignal :=
  ops.foldl (fun s op => op.apply s) self

/-! ## FinancialPortfolio (`FinancialPortfolio.hpp`, `FinancialPortfolio.cpp`) -/

/-- The private members of `class FinancialPortfolio`, in declaration order. -/
structure FinancialPortfolio where
  portfolioId : String
  ownerName : String
  assetAllocation : List Double
  historicalReturns : List (List Double)
  riskMatrix : List (List Float32)
  totalValue : Double
  lastUpdated : String
  isManaged : Bool
  currency : String
  deriving DecidableEq, Repr

/-- The constructor `FinancialPortfolio::FinancialPortfolio(const std::string& id,
const std::string& owner, double value)
: portfolioId(id), ownerName(owner), totalValue(value), isManaged(true), currency("USD")`;
the other members are default-initialised. -/
def FinancialPortfolio.ctor (id : String) (owner : String) (value : Double) :
    FinancialPortfolio :=
  { portfolioId := id, ownerName := owner, assetAllocation := [], historicalReturns := [],
    riskMatrix := [], totalValue := value, lastUpdated := "", isManaged := true,
    currency := "USD" }

/-- The constructor `FinancialPortfolio::FinancialPortfolio() : totalValue(0.0),
isManaged(false)`. -/
def FinancialPortfolio.ctorDefault : FinancialPortfolio :=
  { portfolioId := "", ownerName := "", assetAllocation := [], historicalReturns := [],
    riskMatrix := [], totalValue := 0.0, lastUpdated := "", isManaged := false,
    currency := "" }

/-- The reader `std::string FinancialPortfolio::getPortfolioId() const`. -/
def FinancialPortfolio.getPortfolioId (self : FinancialPortfolio) : String :=
  self.portfolioId

/-- The reader `std::string FinancialPortfolio::getOwnerName() const`. -/
def FinancialPortfolio.getOwnerName (self : FinancialPortfolio) : String := self.ownerName

/-- The reader `std::vector<std::vector<double>> FinancialPortfolio::getHistoricalReturns()
const`. -/
def FinancialPortfolio.getHistoricalReturns (self : FinancialPortfolio) :
    List (List Double) :=
  self.historicalReturns

/-- The reader `std::vector<std::vector<float>> FinancialPortfolio::getRiskMatrix() const`. -/
def FinancialPortfolio.getRiskMatrix (self : FinancialPortfolio) : List (List Float32) :=
  self.riskMatrix

/-- The reader `double FinancialPortfolio::getTotalValue() const`. -/
def FinancialPortfolio.getTotalValue (self : FinancialPortfolio) : Double := self.totalValue

/-- The reader `std::string FinancialPortfolio::getCurrency() const`. -/
def FinancialPortfolio.getCurrency (self : FinancialPortfolio) : String := self.currency

/-- The member function `void FinancialPortfolio::setHistoricalReturns(
const std::vector<std::vector<double>>& returns) { historicalReturns = returns; }`. -/
def FinancialPortfolio.setHistoricalReturns (self : FinancialPortfolio)
    (returns : List (List Double)) : FinancialPortfolio :=
  { self with historicalReturns := returns }

/-- The member function `void FinancialPortfolio::setRiskMatrix(const
std::vector<std::vector<float>>& risk)
{ riskMatrix = risk; }`. -/
def FinancialPortfolio.setRiskMatrix (self : FinancialPortfolio)
    (risk : List (List Float32)) : FinancialPortfolio :=
  { self with riskMatrix := risk }

/-- The member function `void FinancialPortfolio::setTotalValue(double value) { totalValue =
value; }`. -/
def FinancialPortfolio.setTotalValue (self : FinancialPortfolio) (value : Double) :
    FinancialPortfolio :=
  { self with totalValue := value }

/-- One call of a non-const public member function of `FinancialPortfolio`. -/
inductive FinancialPortfolio.Op where
  | setHistoricalReturns (returns : List (List Double))
  | setRiskMatrix (risk : List (List Float32))
  | setTotalValue (value : Double)
  deriving DecidableEq, Repr

/-- The record after the call `op`. -/
def FinancialPortfolio.Op.apply :
    FinancialPortfolio.Op → FinancialPortfolio → FinancialPortfolio
  | .setHistoricalReturns returns, self => self.setHistoricalReturns returns
  | .setRiskMatrix risk, self => self.setRiskMatrix risk
  | .setTotalValue value, self => self.setTotalValue value

/-- The record after the calls `ops`, made in order. -/
def FinancialPortfolio.run (ops : List FinancialPortfolio.Op) (self : FinancialPortfolio) :
    FinancialPortfolio :=
  ops.foldl (fun s op => op.apply s) self

/-! ## NeuralNetworkConfig (`NeuralNetworkConfig.hpp`, `NeuralNetworkConfig.cpp`) -/

/-- The private members of `class NeuralNetworkConfig`, in declaration order. -/
structure NeuralNetworkConfig where
  configId : Int
  layerSizes : List Int
  weights : List (List (List Double))
  biases : List (List Double)
  learningRate : Double
  optimizer : String
  epochs : Int
  isTraining : Bool
  deriving DecidableEq, Repr

/-- The constructor `NeuralNetworkConfig::NeuralNetworkConfig(int id, const std::vector<int>&
layers,
double lr, const std::string& opt)
: configId(id), layerSizes(layers), learningRate(lr), optimizer(opt), epochs(100),
isTraining(false)`; `weights` and `biases` are default-initialised. -/
def NeuralNetworkConfig.ctor (id : Int) (layers : List Int) (lr : Double) (opt : String) :
    NeuralNetworkConfig :=
  { configId := id, layerSizes := layers, weights := [], biases := [], learningRate := lr,
    optimizer := opt, epochs := 100, isTraining := false }

/-- The constructor `NeuralNetworkConfig::NeuralNetworkConfig()
: configId(0), learningRate(0.01), epochs(0), isTraining(false)`. -/
def NeuralNetworkConfig.ctorDefault : NeuralNetworkConfig :=
  { configId := 0, layerSizes := [], weights := [], biases := [], learningRate := 0.01,
    optimizer := "", epochs := 0, isTraining := false }

/-- The reader `int NeuralNetworkConfig::getConfigId() const`. -/
def NeuralNetworkConfig.getConfigId (self : NeuralNetworkConfig) : Int := self.configId

/-- The reader `std::vector<std::vector<std::vector<double>>> NeuralNetworkConfig::getWeights()
const`. -/
def NeuralNetworkConfig.getWeights (self : NeuralNetworkConfig) :
    List (List (List Double)) :=
  self.weights

/-- The reader `std::vector<std::vector<double>> NeuralNetworkConfig::getBiases() const`. -/
def NeuralNetworkConfig.getBiases (self : NeuralNetworkConfig) : List (List Double) :=
  self.biases

/-- The reader `double NeuralNetworkConfig::getLearningRate() const`. -/
def NeuralNetworkConfig.getLearningRate (self : NeuralNetworkConfig) : Double :=
  self.learningRate

/-- The reader `std::string NeuralNetworkConfig::getOptimizer() const`. -/
def NeuralNetworkConfig.getOptimizer (self : NeuralNetworkConfig) : String := self.optimizer

/-- The reader `bool NeuralNetworkConfig::getIsTraining() const`. -/
def NeuralNetworkConfig.getIsTraining (self : NeuralNetworkConfig) : Bool := self.isTraining

/-- The member function `void NeuralNetworkConfig::setWeights(
const std::vector<std::vector<std::vector<double>>>& w) { weights = w; }`. -/
def NeuralNetworkConfig.setWeights (self : NeuralNetworkConfig)
    (w : List (List (List Double))) : NeuralNetworkConfig :=
  { self with weights := w }

/-- The member function `void NeuralNetworkConfig::setBiases(const
std::vector<std::vector<double>>& b)
{ biases = b; }`. -/
def NeuralNetworkConfig.setBiases (self : NeuralNetworkConfig) (b : List (List Double)) :
    NeuralNetworkConfig :=
  { self with biases := b }

/-- The member function `void NeuralNetworkConfig::setIsTraining(bool training) { isTraining =
training; }`. -/
def NeuralNetworkConfig.setIsTraining (self : NeuralNetworkConfig) (training : Bool) :
    NeuralNetworkConfig :=
  { self with isTraining := training }

/-- One call of a non-const public member function of `NeuralNetworkConfig`. -/
inductive NeuralNetworkConfig.Op where
  | setWeights (w : List (List (List Double)))
  | setBiases (b : List (List Double))
  | setIsTraining (training : Bool)
  deriving DecidableEq, Repr

/-- The record after the call `op`. -/
def NeuralNetworkConfig.Op.apply :
    NeuralNetworkConfig.Op → NeuralNetworkConfig → NeuralNetworkConfig
  | .setWeights w, self => self.setWeights w
  | .setBiases b, self => self.setBiases b
  | .setIsTraining training, self => self.setIsTraining training

/-- The record after the calls `ops`, made in order. -/
def NeuralNetworkConfig.run (ops : List NeuralNetworkConfig.Op)
    (self : NeuralNetworkConfig) : NeuralNetworkConfig :=
  ops.foldl (fun s op => op.apply s) self

/-! ## WarehouseLayout (`WarehouseLayout.hpp`, `WarehouseLayout.cpp`) -/

/-- The private members of `class WarehouseLayout`, in declaration order. -/
structure WarehouseLayout where
  id : Int
  zoneName : String
  grid : List (List (List Int))
  temperatureMap : List (List Double)
  isActive : Bool
  managerName : String
  capacity : Int
  deriving DecidableEq, Repr

/-- The constructor `WarehouseLayout::WarehouseLayout(int id, const std::string& zoneName,
const std::vector<std::vector<std::vector<int>>>& grid,
const std::vector<std::vector<double>>& temperatureMap,
bool isActive, const std::string& managerName, long capacity)
: id(id), zoneName(zoneName), grid(grid), temperatureMap(temperatureMap),
isActive(isActive), managerName(managerName), capacity(capacity)`. -/
def WarehouseLayout.ctor (id : Int) (zoneName : String) (grid : List (List (List Int)))
    (temperatureMap : List (List Double)) (isActive : Bool) (managerName : String)
    (capacity : Int) : WarehouseLayout :=
  { id := id, zoneName := zoneName, grid := grid, temperatureMap := temperatureMap,
    isActive := isActive, managerName := managerName, capacity := capacity }

/-- The constructor `WarehouseLayout::WarehouseLayout() : id(0), isActive(false), capacity(0)`. -/
def WarehouseLayout.ctorDefault : WarehouseLayout :=
  { id := 0, zoneName := "", grid := [], temperatureMap := [], isActive := false,
    managerName := "", capacity := 0 }

/-- The reader `int WarehouseLayout::getId() const`. -/
def WarehouseLayout.getId (self : WarehouseLayout) : Int := self.id

/-- The reader `std::string WarehouseLayout::getZoneName() const`. -/
def WarehouseLayout.getZoneName (self : WarehouseLayout) : String := self.zoneName

/-- The reader `std::vector<std::vector<std::vector<int>>> WarehouseLayout::getGrid() const`. -/
def WarehouseLayout.getGrid (self : WarehouseLayout) : List (List (List Int)) := self.grid

/-- The reader `std::vector<std::vector<double>> WarehouseLayout::getTemperatureMap() const`. -/
def WarehouseLayout.getTemperatureMap (self : WarehouseLayout) : List (List Double) :=
  self.temperatureMap

/-- The reader `bool WarehouseLayout::getIsActive() const`. -/
def WarehouseLayout.getIsActive (self : WarehouseLayout) : Bool := self.isActive

/-- The reader `std::string WarehouseLayout::getManagerName() const`. -/
def WarehouseLayout.getManagerName (self : WarehouseLayout) : String := self.managerName

/-- The reader `long WarehouseLayout::getCapacity() const`. -/
def WarehouseLayout.getCapacity (self : WarehouseLayout) : Int := self.capacity

/-- The member function `void WarehouseLayout::setZoneName(const std::string& name) { zoneName =
name; }`. -/
def WarehouseLayout.setZoneName (self : WarehouseLayout) (name : String) : WarehouseLayout :=
  { self with zoneName := name }

/-- The member function `void WarehouseLayout::setGrid(
const std::vector<std::vector<std::vector<int>>>& newGrid) { grid = newGrid; }`. -/
def WarehouseLayout.setGrid (self : WarehouseLayout) (newGrid : List (List (List Int))) :
    WarehouseLayout :=
  { self with grid := newGrid }

/-- The member function `void WarehouseLayout::setTemperatureMap(const
std::vector<std::vector<double>>& map)
{ temperatureMap = map; }`. -/
def WarehouseLayout.setTemperatureMap (self : WarehouseLayout) (map : List (List Double)) :
    WarehouseLayout :=
  { self with temperatureMap := map }

/-- One call of a non-const public member function of `WarehouseLayout`. -/
inductive WarehouseLayout.Op where
  | setZoneName (name : String)
  | setGrid (newGrid : List (List (List Int)))
  | setTemperatureMap (map : List (List Double))
  deriving DecidableEq, Repr

/-- The record after the call `op`. -/
def WarehouseLayout.Op.apply : WarehouseLayout.Op → WarehouseLayout → WarehouseLayout
  | .setZoneName name, self => self.setZoneName name
  | .setGrid newGrid, self => self.setGrid newGrid
  | .setTemperatureMap map, self => self.setTemperatureMap map

/-- The record after the calls `ops`, made in order. -/
def WarehouseLayout.run (ops : List WarehouseLayout.Op) (self : WarehouseLayout) :
    WarehouseLayout :=
  ops.foldl (fun s op => op.apply s) self

/-! ## The read surface

The results of all const public member functions of a record, in the order
of their declaration: what a caller can observe of a record. -/

/-- The results of the readers of `Category`. -/
def Category.readers (self : Category) :
    Int × String :=
  (self.getId, self.getTitle)

/-- The results of the readers of `Product`. -/
def Product.readers (self : Product) :
    Int × String × Double × Bool :=
  (self.getId, self.getName, self.getPrice, self.isInStock)

/-- The results of the readers of `Order`. -/
def Order.readers (self : Order) :
    String × Double × Int :=
  (self.getOrderId, self.getTotalAmount, self.getItemCount)

/-- The results of the readers of `Invoice`. -/
def Invoice.readers (self : Invoice) :
    String × String × Bool :=
  (self.getInvoiceNumber, self.getIssueDate, self.getIsPaid)

/-- The results of the readers of `Customer`. -/
def Customer.readers (self : Customer) :
    Int × String × String × String × Int :=
  (self.getCustomerId, self.getFirstName, self.getLastName, self.getEmail, self.getAge)

/-- The results of the readers and of `toString` of `User`. -/
def User.readers (self : User) :
    Int × String × String × Bool × String :=
  (self.getId, self.getUsername, self.getEmail, self.isActive, self.toString)

/-- The results of the readers of `GameMap`. -/
def GameMap.readers (self : GameMap) :
    Int × String × List (List Int) × List (List String) × Int × Bool :=
  (self.getMapId, self.getName, self.getTerrain, self.getObjectPlacement, self.getDifficulty,
    self.getIsRanked)

/-- The results of the readers of `ComplexSignal`. -/
def ComplexSignal.readers (self : ComplexSignal) :
    String × Int × List Double × List (List Double) × Bool × String :=
  (self.getSignalId, self.getTimestamp, self.getRawWaveform, self.getSpectrogram, self.getIsValid,
    self.getSourceDevice)

/-- The results of the readers of `FinancialPortfolio`. -/
def FinancialPortfolio.readers (self : FinancialPortfolio) :
    String × String × List (List Double) × List (List Float32) × Double × String :=
  (self.getPortfolioId, self.getOwnerName, self.getHistoricalReturns, self.getRiskMatrix,
    self.getTotalValue, self.getCurrency)

/-- The results of the readers of `NeuralNetworkConfig`. -/
def NeuralNetworkConfig.readers (self : NeuralNetworkConfig) :
    Int × List (List (List Double)) × List (List Double) × Double × String × Bool :=
  (self.getConfigId, self.getWeights, self.getBiases, self.getLearningRate, self.getOptimizer,
    self.getIsTraining)

/-- The results of the readers of `WarehouseLayout`. -/
def WarehouseLayout.readers (self : WarehouseLayout) :
    Int × String × List (List (List Int)) × List (List Double) × Bool × String × Int :=
  (self.getId, self.getZoneName, self.getGrid, self.getTemperatureMap, self.getIsActive,
    self.getManagerName, self.getCapacity)

/-! ## Construction in storage

A constructor runs on storage that already holds something.  A member named
in the mem-initialiser list gets its initialiser; a member of class type
(`std::string`, `std::vector`) that the list does not name is
default-constructed, to the empty value; a scalar member that the list does
not name is left as the storage held it.  `construct` and `constructDefault`
are the two constructors of each class read this way, with `mem` the previous
content of the storage: the update lists the members of the mem-initialiser
list in its order, then the default-constructed members of class type. -/

/-- The constructor `Category::Category(id, title)` run on storage that held `mem`. -/
def Category.construct (mem : Category) (id : Int) (title : String) : Category :=
  { mem with
    id := id, title := title }

/-- The constructor `Category::Category()` run on storage that held `mem`. -/
def Category.constructDefault (mem : Category) : Category :=
  { mem with
    id := 0, title := "" }

/-- The constructor `Product::Product(id, name, price, inStock)` run on
storage that held `mem`. -/
def Product.construct (mem : Product) (id : Int) (name : String) (price : Double)
    (inStock : Bool) : Product :=
  { mem with
    id := id, name := name, price := price, inStock := inStock }

/-- The constructor `Product::Product()` run on storage that held `mem`. -/
def Product.constructDefault (mem : Product) : Product :=
  { mem with
    id := 0, price := 0.0, inStock := false, name := "" }

/-- The constructor `Order::Order(orderId, totalAmount, itemCount)` run on
storage that held `mem`. -/
def Order.construct (mem : Order) (orderId : String) (totalAmount : Double) (itemCount : Int) :
    Order :=
  { mem with
    orderId := orderId, totalAmount := totalAmount, itemCount := itemCount }

/-- The constructor `Order::Order()` run on storage that held `mem`. -/
def Order.constructDefault (mem : Order) : Order :=
  { mem with
    totalAmount := 0.0, itemCount := 0, orderId := "" }

/-- The constructor `Invoice::Invoice(number, date, paid)` run on storage that held `mem`. -/
def Invoice.construct (mem : Invoice) (number : String) (date : String) (paid : Bool) : Invoice :=
  { mem with
    invoiceNumber := number, issueDate := date, isPaid := paid }

/-- The constructor `Invoice::Invoice()` run on storage that held `mem`. -/
def Invoice.constructDefault (mem : Invoice) : Invoice :=
  { mem with
    isPaid := false, invoiceNumber := "", issueDate := "" }

/-- The constructor `Customer::Customer(id, first, last, email, age)` run on
storage that held `mem`. -/
def Customer.construct (mem : Customer) (id : Int) (first : String) (last : String)
    (email : String) (age : Int) : Customer :=
  { mem with
    customerId := id, firstName := first, lastName := last, email := email, age := age }

/-- The constructor `Customer::Customer()` run on storage that held `mem`. -/
def Customer.constructDefault (mem : Customer) : Customer :=
  { mem with
    customerId := 0, age := 0, firstName := "", lastName := "", email := "" }

/-- The constructor `User::User(id, username, email)` run on storage that held `mem`. -/
def User.construct (mem : User) (id : Int) (username : String) (email : String) : User :=
  { mem with
    id := id, username := username, email := email, active := true }

/-- The constructor `User::User()` run on storage that held `mem`. -/
def User.constructDefault (mem : User) : User :=
  { mem with
    id := 0, active := false, username := "", email := "" }

/-- The constructor `GameMap::GameMap(id, name, terrain, diff, maxP, ranked)` run on
storage that held `mem`. -/
def GameMap.construct (mem : GameMap) (id : Int) (name : String) (terrain : List (List Int))
    (diff : Int) (maxP : Int) (ranked : Bool) : GameMap :=
  { mem with
    mapId := id, name := name, terrain := terrain, difficulty := diff, maxPlayers := maxP,
    isRanked := ranked, objectPlacement := [], tags := [] }

/-- The constructor `GameMap::GameMap()` run on storage that held `mem`. -/
def GameMap.constructDefault (mem : GameMap) : GameMap :=
  { mem with
    mapId := 0, difficulty := 0, maxPlayers := 0, isRanked := false, name := "", terrain := [],
    objectPlacement := [], tags := [] }

/-- The constructor `ComplexSignal::ComplexSignal(id, time, wave, spec, bands, valid, device,
gain)` run on
storage that held `mem`. -/
def ComplexSignal.construct (mem : ComplexSignal) (id : String) (time : Int)
    (wave : List Double) (spec : List (List Double)) (bands : List Float32) (valid : Bool)
    (device : String) (gain : Double) : ComplexSignal :=
  { mem with
    signalId := id, timestamp := time, rawWaveform := wave, spectrogram := spec,
    frequencyBands := bands, isValid := valid, sourceDevice := device, gain := gain }

/-- The constructor `ComplexSignal::ComplexSignal()` run on storage that held `mem`. -/
def ComplexSignal.constructDefault (mem : ComplexSignal) : ComplexSignal :=
  { mem with
    timestamp := 0, isValid := false, gain := 0.0, signalId := "", rawWaveform := [],
    spectrogram := [], frequencyBands := [], sourceDevice := "" }

/-- The constructor `FinancialPortfolio::FinancialPortfolio(id, owner, value)` run on
storage that held `mem`. -/
def FinancialPortfolio.construct (mem : FinancialPortfolio) (id : String) (owner : String)
    (value : Double) : FinancialPortfolio :=
  { mem with
    portfolioId := id, ownerName := owner, totalValue := value, isManaged := true,
    currency := "USD", assetAllocation := [], historicalReturns := [], riskMatrix := [],
    lastUpdated := "" }

/-- The constructor `FinancialPortfolio::FinancialPortfolio()` run on storage that held `mem`. -/
def FinancialPortfolio.constructDefault (mem : FinancialPortfolio) : FinancialPortfolio :=
  { mem with
    totalValue := 0.0, isManaged := false, portfolioId := "", ownerName := "",
    assetAllocation := [], historicalReturns := [], riskMatrix := [], lastUpdated := "",
    currency := "" }

/-- The constructor `NeuralNetworkConfig::NeuralNetworkConfig(id, layers, lr, opt)` run on
storage that held `mem`. -/
def NeuralNetworkConfig.construct (mem : NeuralNetworkConfig) (id : Int) (layers : List Int)
    (lr : Double) (opt : String) : NeuralNetworkConfig :=
  { mem with
    configId := id, layerSizes := layers, learningRate := lr, optimizer := opt, epochs := 100,
    isTraining := false, weights := [], biases := [] }

/-- The constructor `NeuralNetworkConfig::NeuralNetworkConfig()` run on storage that held `mem`. -/
def NeuralNetworkConfig.constructDefault (mem : NeuralNetworkConfig) : NeuralNetworkConfig :=
  { mem with
    configId := 0, learningRate := 0.01, epochs := 0, isTraining := false, layerSizes := [],
    weights := [], biases := [], optimizer := "" }

/-- The constructor `WarehouseLayout::WarehouseLayout(id, zoneName, grid, temperatureMap,
isActive, managerName, capacity)` run on
storage that held `mem`. -/
def WarehouseLayout.construct (mem : WarehouseLayout) (id : Int) (zoneName : String)
    (grid : List (List (List Int))) (temperatureMap : List (List Double)) (isActive : Bool)
    (managerName : String) (capacity : Int) : WarehouseLayout :=
  { mem with
    id := id, zoneName := zoneName, grid := grid, temperatureMap := temperatureMap,
    isActive := isActive, managerName := managerName, capacity := capacity }

/-- The constructor `WarehouseLayout::WarehouseLayout()` run on storage that held `mem`. -/
def WarehouseLayout.constructDefault (mem : WarehouseLayout) : WarehouseLayout :=
  { mem with
    id := 0, isActive := false, capacity := 0, zoneName := "", grid := [], temperatureMap := [],
    managerName := "" }

/-! ## Lemmas on the primitive types and on call sequences -/

/-- The literals of the source and of the scenarios, as bit patterns. -/
theorem Double.literal_bits :
    (0.0 : Double) = ⟨0⟩ ∧ (0.01 : Double) = ⟨0x3F847AE147AE147B⟩ ∧
    (9.5 : Double) = ⟨0x4023000000000000⟩ ∧ (10.0 : Double) = ⟨0x4024000000000000⟩ ∧
    (1000.0 : Double) = ⟨0x408F400000000000⟩ ∧ (0.05 : Double) = ⟨0x3FA999999999999A⟩ := by
  decide

/-- A reader that no call of a class `P` changes keeps its value along any
sequence of calls of that class. -/
theorem foldl_reader_eq {σ ω α : Type} (step : σ → ω → σ) (f : σ → α) (P : ω → Prop)
    (h : ∀ s op, P op → f (step s op) = f s) (ops : List ω) (s : σ)
    (hops : ∀ op ∈ ops, P op) : f (ops.foldl step s) = f s := by
  induction ops generalizing s with
  | nil => rfl
  | cons op rest ih =>
    rw [List.foldl_cons, ih (step s op) (fun o ho => hops o (List.mem_cons_of_mem _ ho))]
    exact h s op (hops op (List.mem_cons_self _ _))

/-- A reader that no call changes keeps its value along any sequence of calls. -/
theorem foldl_reader_const {σ ω α : Type} (step : σ → ω → σ) (f : σ → α)
    (h : ∀ s op, f (step s op) = f s) (ops : List ω) (s : σ) :
    f (ops.foldl step s) = f s :=
  foldl_reader_eq step f (fun _ => True) (fun s op _ => h s op) ops s (fun _ _ => trivial)

/-- The first call of a sequence is made on the start state, the rest on its result. -/
theorem User.run_cons (op : User.Op) (rest : List User.Op) (s : User × Sink) :
    User.run (op :: rest) s = User.run rest (op.apply s) :=
  rfl

/-- The sink only grows by the calls of `activate` and `deactivate`: one
line for each of them, in any sequence of calls. -/
theorem User.run_sink_length (ops : List User.Op) (s : User × Sink) :
    (User.run ops s).2.length =
      s.2.length + (ops.filter
        (fun op => decide (op = User.Op.activate ∨ op = User.Op.deactivate))).length := by
  induction ops generalizing s with
  | nil => rfl
  | cons op rest ih =>
    rw [User.run_cons, ih]
    obtain ⟨u, cout⟩ := s
    cases op <;>
      simp [User.Op.apply, User.activate, User.deactivate, Sink.endl, Nat.add_assoc,
        Nat.add_comm]

/-- The record after a sequence of calls does not depend on the sink the
calls write to. -/
theorem User.run_record_eq (ops : List User.Op) (s t : User × Sink) (h : s.1 = t.1) :
    (User.run ops s).1 = (User.run ops t).1 := by
  induction ops generalizing s t with
  | nil => exact h
  | cons op rest ih =>
    rw [User.run_cons, User.run_cons]
    apply ih
    obtain ⟨u, c⟩ := s
    obtain ⟨v, d⟩ := t
    cases h
    cases op <;> rfl

/-- A relation between two states that every call keeps holds after any
sequence of calls made on both. -/
theorem foldl_rel {σ ω : Type} (step : σ → ω → σ) (R : σ → σ → Prop)
    (h : ∀ s t op, R s t → R (step s op) (step t op)) (ops : List ω) (s t : σ)
    (hst : R s t) : R (ops.foldl step s) (ops.foldl step t) := by
  induction ops generalizing s t with
  | nil => exact hst
  | cons op rest ih => exact ih _ _ (h s t op hst)

/-- Two `ComplexSignal` states that differ in `gain` only still differ in
`gain` only after the same calls. -/
theorem ComplexSignal.run_setGain (ops : List ComplexSignal.Op) (s t : ComplexSignal)
    (h : s.setGain 0.0 = t.setGain 0.0) :
    (ComplexSignal.run ops s).setGain 0.0 = (ComplexSignal.run ops t).setGain 0.0 := by
  refine foldl_rel _ (fun a b : ComplexSignal => a.setGain 0.0 = b.setGain 0.0) ?_ ops s t h
  intro a b op hab
  cases a
  cases b
  cases op <;>
    simp_all [ComplexSignal.Op.apply, ComplexSignal.setGain, ComplexSignal.setSpectrogram]

/-- Two `GameMap` states that differ in `tags` only still differ in `tags`
only after the same calls. -/
theorem GameMap.run_setTags (ops : List GameMap.Op) (s t : GameMap)
    (h : s.setTags [] = t.setTags []) :
    (GameMap.run ops s).setTags [] = (GameMap.run ops t).setTags [] := by
  refine foldl_rel _ (fun a b : GameMap => a.setTags [] = b.setTags []) ?_ ops s t h
  intro a b op hab
  cases a
  cases b
  cases op <;> simp_all [GameMap.Op.apply, GameMap.setTags, GameMap.setTerrain]

/-- Whatever the storage held, a constructor leaves in it the record that
`ctor` (`ctorDefault`) describes: every member is initialised. -/
theorem construct_eq_ctor :
    (∀ (mem : Category) (id : Int) (title : String),
      Category.construct mem id title = Category.ctor id title) ∧
    (∀ mem : Category, Category.constructDefault mem = Category.ctorDefault) ∧
    (∀ (mem : Product) (id : Int) (name : String) (price : Double) (inStock : Bool),
      Product.construct mem id name price inStock = Product.ctor id name price inStock) ∧
    (∀ mem : Product, Product.constructDefault mem = Product.ctorDefault) ∧
    (∀ (mem : Order) (orderId : String) (totalAmount : Double) (itemCount : Int),
      Order.construct mem orderId totalAmount itemCount =
        Order.ctor orderId totalAmount itemCount) ∧
    (∀ mem : Order, Order.constructDefault mem = Order.ctorDefault) ∧
    (∀ (mem : Invoice) (number : String) (date : String) (paid : Bool),
      Invoice.construct mem number date paid = Invoice.ctor number date paid) ∧
    (∀ mem : Invoice, Invoice.constructDefault mem = Invoice.ctorDefault) ∧
    (∀ (mem : Customer) (id : Int) (first : String) (last : String) (email : String) (age : Int),
      Customer.construct mem id first last email age = Customer.ctor id first last email age) ∧
    (∀ mem : Customer, Customer.constructDefault mem = Customer.ctorDefault) ∧
    (∀ (mem : User) (id : Int) (username : String) (email : String),
      User.construct mem id username email = User.ctor id username email) ∧
    (∀ mem : User, User.constructDefault mem = User.ctorDefault) ∧
    (∀ (mem : GameMap) (id : Int) (name : String) (terrain : List (List Int)) (diff : Int)
        (maxP : Int) (ranked : Bool),
      GameMap.construct mem id name terrain diff maxP ranked =
        GameMap.ctor id name terrain diff maxP ranked) ∧
    (∀ mem : GameMap, GameMap.constructDefault mem = GameMap.ctorDefault) ∧
    (∀ (mem : ComplexSignal) (id : String) (time : Int) (wave : List Double)
        (spec : List (List Double)) (bands : List Float32) (valid : Bool) (device : String)
        (gain : Double),
      ComplexSignal.construct mem id time wave spec bands valid device gain =
        ComplexSignal.ctor id time wave spec bands valid device gain) ∧
    (∀ mem : ComplexSignal, ComplexSignal.constructDefault mem = ComplexSignal.ctorDefault) ∧
    (∀ (mem : FinancialPortfolio) (id : String) (owner : String) (value : Double),
      FinancialPortfolio.construct mem id owner value = FinancialPortfolio.ctor id owner value) ∧
    (∀ mem : FinancialPortfolio,
      FinancialPortfolio.constructDefault mem = FinancialPortfolio.ctorDefault) ∧
    (∀ (mem : NeuralNetworkConfig) (id : Int) (layers : List Int) (lr : Double) (opt : String),
      NeuralNetworkConfig.construct mem id layers lr opt =
        NeuralNetworkConfig.ctor id layers lr opt) ∧
    (∀ mem : NeuralNetworkConfig,
      NeuralNetworkConfig.constructDefault mem = NeuralNetworkConfig.ctorDefault) ∧
    (∀ (mem : WarehouseLayout) (id : Int) (zoneName : String) (grid : List (List (List Int)))
        (temperatureMap : List (List Double)) (isActive : Bool) (managerName : String)
        (capacity : Int),
      WarehouseLayout.construct mem id zoneName grid temperatureMap isActive managerName capacity =
        WarehouseLayout.ctor id zoneName grid temperatureMap isActive managerName capacity) ∧
    (∀ mem : WarehouseLayout, WarehouseLayout.constructDefault mem = WarehouseLayout.ctorDefault) :=
  ⟨fun _ _ _ => rfl, fun _ => rfl, fun _ _ _ _ _ => rfl, fun _ => rfl, fun _ _ _ _ => rfl,
    fun _ => rfl, fun _ _ _ _ => rfl, fun _ => rfl, fun _ _ _ _ _ _ => rfl, fun _ => rfl,
    fun _ _ _ _ => rfl, fun _ => rfl, fun _ _ _ _ _ _ _ => rfl, fun _ => rfl,
    fun _ _ _ _ _ _ _ _ _ => rfl, fun _ => rfl, fun _ _ _ _ => rfl, fun _ => rfl,
    fun _ _ _ _ _ => rfl, fun _ => rfl, fun _ _ _ _ _ _ _ _ => rfl, fun _ => rfl⟩


/-! ## The claims -/

/-- C1 (constructor-to-reader round trip).  For every record of the catalog and
every tuple of value-constructor arguments, every reader of a constructor
argument returns that argument after any sequence of calls in which no
setter of that attribute occurs (in particular right after construction).
Attributes without a setter need no condition.  The arguments are arbitrary:
`WarehouseLayout.getGrid` returns any 3-level nested sequence as passed,
whether empty or ragged. -/
theorem constructor_reader_round_trip :
    (∀ (id : Int) (title : String) (ops : List Category.Op),
      (Category.run ops (Category.ctor id title)).getId = id ∧
      ((∀ op ∈ ops, ∀ x, op ≠ Category.Op.setTitle x) →
        (Category.run ops (Category.ctor id title)).getTitle = title)) ∧
    (∀ (id : Int) (name : String) (price : Double) (inStock : Bool) (ops : List Product.Op),
      (Product.run ops (Product.ctor id name price inStock)).getId = id ∧
      ((∀ op ∈ ops, ∀ x, op ≠ Product.Op.setName x) →
        (Product.run ops (Product.ctor id name price inStock)).getName = name) ∧
      ((∀ op ∈ ops, ∀ x, op ≠ Product.Op.setPrice x) →
        (Product.run ops (Product.ctor id name price inStock)).getPrice = price) ∧
      ((∀ op ∈ ops, ∀ x, op ≠ Product.Op.setInStock x) →
        (Product.run ops (Product.ctor id name price inStock)).isInStock = inStock)) ∧
    (∀ (orderId : String) (totalAmount : Double) (itemCount : Int) (ops : List Order.Op),
      (Order.run ops (Order.ctor orderId totalAmount itemCount)).getOrderId = orderId ∧
      ((∀ op ∈ ops, ∀ x, op ≠ Order.Op.setTotalAmount x) →
        (Order.run ops (Order.ctor orderId totalAmount itemCount)).getTotalAmount = totalAmount) ∧
      ((∀ op ∈ ops, ∀ x, op ≠ Order.Op.setItemCount x) →
        (Order.run ops (Order.ctor orderId totalAmount itemCount)).getItemCount = itemCount)) ∧
    (∀ (number : String) (date : String) (paid : Bool) (ops : List Invoice.Op),
      (Invoice.run ops (Invoice.ctor number date paid)).getInvoiceNumber = number ∧
      (Invoice.run ops (Invoice.ctor number date paid)).getIssueDate = date ∧
      ((∀ op ∈ ops, ∀ x, op ≠ Invoice.Op.setPaid x) →
        (Invoice.run ops (Invoice.ctor number date paid)).getIsPaid = paid)) ∧
    (∀ (id : Int) (first : String) (last : String) (email : String) (age : Int)
        (ops : List Customer.Op),
      (Customer.run ops (Customer.ctor id first last email age)).getCustomerId = id ∧
      (Customer.run ops (Customer.ctor id first last email age)).getFirstName = first ∧
      (Customer.run ops (Customer.ctor id first last email age)).getLastName = last ∧
      ((∀ op ∈ ops, ∀ x, op ≠ Customer.Op.setEmail x) →
        (Customer.run ops (Customer.ctor id first last email age)).getEmail = email) ∧
      ((∀ op ∈ ops, ∀ x, op ≠ Customer.Op.setAge x) →
        (Customer.run ops (Customer.ctor id first last email age)).getAge = age)) ∧
    (∀ (id : Int) (username : String) (email : String) (ops : List User.Op) (cout : Sink),
      (User.run ops (User.ctor id username email, cout)).1.getId = id ∧
      ((∀ op ∈ ops, ∀ x, op ≠ User.Op.setUsername x) →
        (User.run ops (User.ctor id username email, cout)).1.getUsername = username) ∧
      ((∀ op ∈ ops, ∀ x, op ≠ User.Op.setEmail x) →
        (User.run ops (User.ctor id username email, cout)).1.getEmail = email)) ∧
    (∀ (id : Int) (name : String) (terrain : List (List Int)) (diff : Int) (maxP : Int)
        (ranked : Bool) (ops : List GameMap.Op),
      (GameMap.run ops (GameMap.ctor id name terrain diff maxP ranked)).getMapId = id ∧
      (GameMap.run ops (GameMap.ctor id name terrain diff maxP ranked)).getName = name ∧
      ((∀ op ∈ ops, ∀ x, op ≠ GameMap.Op.setTerrain x) →
        (GameMap.run ops (GameMap.ctor id name terrain diff maxP ranked)).getTerrain = terrain) ∧
      (GameMap.run ops (GameMap.ctor id name terrain diff maxP ranked)).getDifficulty = diff ∧
      (GameMap.run ops (GameMap.ctor id name terrain diff maxP ranked)).getIsRanked = ranked) ∧
    (∀ (id : String) (time : Int) (wave : List Double) (spec : List (List Double))
        (bands : List Float32) (valid : Bool) (device : String) (gain : Double)
        (ops : List ComplexSignal.Op),
      (ComplexSignal.run ops
        (ComplexSignal.ctor id time wave spec bands valid device gain)).getSignalId = id ∧
      (ComplexSignal.run ops
        (ComplexSignal.ctor id time wave spec bands valid device gain)).getTimestamp = time ∧
      (ComplexSignal.run ops
        (ComplexSignal.ctor id time wave spec bands valid device gain)).getRawWaveform = wave ∧
      ((∀ op ∈ ops, ∀ x, op ≠ ComplexSignal.Op.setSpectrogram x) →
        (ComplexSignal.run ops
          (ComplexSignal.ctor id time wave spec bands valid device gain)).getSpectrogram = spec) ∧
      (ComplexSignal.run ops
        (ComplexSignal.ctor id time wave spec bands valid device gain)).getIsValid = valid ∧
      (ComplexSignal.run ops
        (ComplexSignal.ctor id time wave spec bands valid device gain)).getSourceDevice = device) ∧
    (∀ (id : String) (owner : String) (value : Double) (ops : List FinancialPortfolio.Op),
      (FinancialPortfolio.run ops (FinancialPortfolio.ctor id owner value)).getPortfolioId = id ∧
      (FinancialPortfolio.run ops (FinancialPortfolio.ctor id owner value)).getOwnerName = owner ∧
      ((∀ op ∈ ops, ∀ x, op ≠ FinancialPortfolio.Op.setTotalValue x) →
        (FinancialPortfolio.run ops
          (FinancialPortfolio.ctor id owner value)).getTotalValue = value)) ∧
    (∀ (id : Int) (layers : List Int) (lr : Double) (opt : String)
        (ops : List NeuralNetworkConfig.Op),
      (NeuralNetworkConfig.run ops (NeuralNetworkConfig.ctor id layers lr opt)).getConfigId = id ∧
      (NeuralNetworkConfig.run ops
        (NeuralNetworkConfig.ctor id layers lr opt)).getLearningRate = lr ∧
      (NeuralNetworkConfig.run ops
        (NeuralNetworkConfig.ctor id layers lr opt)).getOptimizer = opt) ∧
    (∀ (id : Int) (zone : String) (g : List (List (List Int))) (t : List (List Double))
        (active : Bool) (manager : String) (capacity : Int) (ops : List WarehouseLayout.Op),
      (WarehouseLayout.run ops
        (WarehouseLayout.ctor id zone g t active manager capacity)).getId = id ∧
      ((∀ op ∈ ops, ∀ x, op ≠ WarehouseLayout.Op.setZoneName x) →
        (WarehouseLayout.run ops
          (WarehouseLayout.ctor id zone g t active manager capacity)).getZoneName = zone) ∧
      ((∀ op ∈ ops, ∀ x, op ≠ WarehouseLayout.Op.setGrid x) →
        (WarehouseLayout.run ops
          (WarehouseLayout.ctor id zone g t active manager capacity)).getGrid = g) ∧
      ((∀ op ∈ ops, ∀ x, op ≠ WarehouseLayout.Op.setTemperatureMap x) →
        (WarehouseLayout.run ops
          (WarehouseLayout.ctor id zone g t active manager capacity)).getTemperatureMap = t) ∧
      (WarehouseLayout.run ops
        (WarehouseLayout.ctor id zone g t active manager capacity)).getIsActive = active ∧
      (WarehouseLayout.run ops
        (WarehouseLayout.ctor id zone g t active manager capacity)).getManagerName = manager ∧
      (WarehouseLayout.run ops
        (WarehouseLayout.ctor id zone g t active manager capacity)).getCapacity = capacity) := by
  refine ⟨?_, ?_, ?_, ?_, ?_, ?_, ?_, ?_, ?_, ?_, ?_⟩
  · intro id title ops
    refine ⟨?_, ?_⟩
    · exact foldl_reader_const _ Category.getId (fun s op => by cases op; rfl) ops _
    · exact fun h => foldl_reader_eq _ Category.getTitle _
        (fun s op hop => by cases op; exact absurd rfl (hop _)) ops _ h
  · intro id name price inStock ops
    refine ⟨?_, ?_, ?_, ?_⟩
    · exact foldl_reader_const _ Product.getId (fun s op => by cases op <;> rfl) ops _
    · exact fun h => foldl_reader_eq _ Product.getName _
        (fun s op hop => by cases op <;> first | rfl | exact absurd rfl (hop _)) ops _ h
    · exact fun h => foldl_reader_eq _ Product.getPrice _
        (fun s op hop => by cases op <;> first | rfl | exact absurd rfl (hop _)) ops _ h
    · exact fun h => foldl_reader_eq _ Product.isInStock _
        (fun s op hop => by cases op <;> first | rfl | exact absurd rfl (hop _)) ops _ h
  · intro orderId totalAmount itemCount ops
    refine ⟨?_, ?_, ?_⟩
    · exact foldl_reader_const _ Order.getOrderId (fun s op => by cases op <;> rfl) ops _
    · exact fun h => foldl_reader_eq _ Order.getTotalAmount _
        (fun s op hop => by cases op <;> first | rfl | exact absurd rfl (hop _)) ops _ h
    · exact fun h => foldl_reader_eq _ Order.getItemCount _
        (fun s op hop => by cases op <;> first | rfl | exact absurd rfl (hop _)) ops _ h
  · intro number date paid ops
    refine ⟨?_, ?_, ?_⟩
    · exact foldl_reader_const _ Invoice.getInvoiceNumber (fun s op => by cases op; rfl) ops _
    · exact foldl_reader_const _ Invoice.getIssueDate (fun s op => by cases op; rfl) ops _
    · exact fun h => foldl_reader_eq _ Invoice.getIsPaid _
        (fun s op hop => by cases op; exact absurd rfl (hop _)) ops _ h
  · intro id first last email age ops
    refine ⟨?_, ?_, ?_, ?_, ?_⟩
    · exact foldl_reader_const _ Customer.getCustomerId (fun s op => by cases op <;> rfl) ops _
    · exact foldl_reader_const _ Customer.getFirstName (fun s op => by cases op <;> rfl) ops _
    · exact foldl_reader_const _ Customer.getLastName (fun s op => by cases op <;> rfl) ops _
    · exact fun h => foldl_reader_eq _ Customer.getEmail _
        (fun s op hop => by cases op <;> first | rfl | exact absurd rfl (hop _)) ops _ h
    · exact fun h => foldl_reader_eq _ Customer.getAge _
        (fun s op hop => by cases op <;> first | rfl | exact absurd rfl (hop _)) ops _ h
  · intro id username email ops cout
    refine ⟨?_, ?_, ?_⟩
    · exact foldl_reader_const _ (fun s : User × Sink => User.getId s.1)
        (fun s op => by cases op <;> rfl) ops _
    · exact fun h => foldl_reader_eq _ (fun s : User × Sink => User.getUsername s.1) _
        (fun s op hop => by cases op <;> first | rfl | exact absurd rfl (hop _)) ops _ h
    · exact fun h => foldl_reader_eq _ (fun s : User × Sink => User.getEmail s.1) _
        (fun s op hop => by cases op <;> first | rfl | exact absurd rfl (hop _)) ops _ h
  · intro id name terrain diff maxP ranked ops
    refine ⟨?_, ?_, ?_, ?_, ?_⟩
    · exact foldl_reader_const _ GameMap.getMapId (fun s op => by cases op <;> rfl) ops _
    · exact foldl_reader_const _ GameMap.getName (fun s op => by cases op <;> rfl) ops _
    · exact fun h => foldl_reader_eq _ GameMap.getTerrain _
        (fun s op hop => by cases op <;> first | rfl | exact absurd rfl (hop _)) ops _ h
    · exact foldl_reader_const _ GameMap.getDifficulty (fun s op => by cases op <;> rfl) ops _
    · exact foldl_reader_const _ GameMap.getIsRanked (fun s op => by cases op <;> rfl) ops _
  · intro id time wave spec bands valid device gain ops
    refine ⟨?_, ?_, ?_, ?_, ?_, ?_⟩
    · exact foldl_reader_const _ ComplexSignal.getSignalId (fun s op => by cases op <;> rfl) ops _
    · exact foldl_reader_const _ ComplexSignal.getTimestamp
        (fun s op => by cases op <;> rfl) ops _
    · exact foldl_reader_const _ ComplexSignal.getRawWaveform
        (fun s op => by cases op <;> rfl) ops _
    · exact fun h => foldl_reader_eq _ ComplexSignal.getSpectrogram _
        (fun s op hop => by cases op <;> first | rfl | exact absurd rfl (hop _)) ops _ h
    · exact foldl_reader_const _ ComplexSignal.getIsValid (fun s op => by cases op <;> rfl) ops _
    · exact foldl_reader_const _ ComplexSignal.getSourceDevice
        (fun s op => by cases op <;> rfl) ops _
  · intro id owner value ops
    refine ⟨?_, ?_, ?_⟩
    · exact foldl_reader_const _ FinancialPortfolio.getPortfolioId
        (fun s op => by cases op <;> rfl) ops _
    · exact foldl_reader_const _ FinancialPortfolio.getOwnerName
        (fun s op => by cases op <;> rfl) ops _
    · exact fun h => foldl_reader_eq _ FinancialPortfolio.getTotalValue _
        (fun s op hop => by cases op <;> first | rfl | exact absurd rfl (hop _)) ops _ h
  · intro id layers lr opt ops
    refine ⟨?_, ?_, ?_⟩
    · exact foldl_reader_const _ NeuralNetworkConfig.getConfigId
        (fun s op => by cases op <;> rfl) ops _
    · exact foldl_reader_const _ NeuralNetworkConfig.getLearningRate
        (fun s op => by cases op <;> rfl) ops _
    · exact foldl_reader_const _ NeuralNetworkConfig.getOptimizer
        (fun s op => by cases op <;> rfl) ops _
  · intro id zone g t active manager capacity ops
    refine ⟨?_, ?_, ?_, ?_, ?_, ?_, ?_⟩
    · exact foldl_reader_const _ WarehouseLayout.getId (fun s op => by cases op <;> rfl) ops _
    · exact fun h => foldl_reader_eq _ WarehouseLayout.getZoneName _
        (fun s op hop => by cases op <;> first | rfl | exact absurd rfl (hop _)) ops _ h
    · exact fun h => foldl_reader_eq _ WarehouseLayout.getGrid _
        (fun s op hop => by cases op <;> first | rfl | exact absurd rfl (hop _)) ops _ h
    · exact fun h => foldl_reader_eq _ WarehouseLayout.getTemperatureMap _
        (fun s op hop => by cases op <;> first | rfl | exact absurd rfl (hop _)) ops _ h
    · exact foldl_reader_const _ WarehouseLayout.getIsActive
        (fun s op => by cases op <;> rfl) ops _
    · exact foldl_reader_const _ WarehouseLayout.getManagerName
        (fun s op => by cases op <;> rfl) ops _
    · exact foldl_reader_const _ WarehouseLayout.getCapacity
        (fun s op => by cases op <;> rfl) ops _


/-- C1 witness: a ragged, partly empty grid is read back unchanged after a
call of a setter of another attribute. -/
theorem constructor_reader_round_trip_witness :
    (WarehouseLayout.run [WarehouseLayout.Op.setZoneName "B"]
      (WarehouseLayout.ctor 7 "A" [[[1, 2, 3], [4]], [], [[], [5, 6]]] [[20.5], []] true
        "kim" 1200)).getGrid = [[[1, 2, 3], [4]], [], [[], [5, 6]]] :=
  (constructor_reader_round_trip.2.2.2.2.2.2.2.2.2.2 7 "A" [[[1, 2, 3], [4]], [], [[], [5, 6]]]
    [[20.5], []] true "kim" 1200 [WarehouseLayout.Op.setZoneName "B"]).2.2.1 (by simp)


/-- C2 as stated fails: the default-constructed `NeuralNetworkConfig` has a
floating-point scalar, `learningRate`, that is neither `0.0` nor `-0.0`. -/
theorem default_learningRate_ne_zero :
    NeuralNetworkConfig.ctorDefault.getLearningRate ≠ 0.0 ∧
    NeuralNetworkConfig.ctorDefault.getLearningRate ≠ -0.0 := by
  decide

/-- C2, amended (default construction).  In the default-constructed instance
of every record each numeric scalar is 0, except
`NeuralNetworkConfig.learningRate`, which is `0.01`; each boolean flag is
false; each collection is empty. -/
theorem default_construction :
    Category.ctorDefault.id = 0 ∧
    (Product.ctorDefault.id = 0 ∧ Product.ctorDefault.price = 0.0 ∧
      Product.ctorDefault.inStock = false) ∧
    (Order.ctorDefault.totalAmount = 0.0 ∧ Order.ctorDefault.itemCount = 0) ∧
    Invoice.ctorDefault.isPaid = false ∧
    (Customer.ctorDefault.customerId = 0 ∧ Customer.ctorDefault.age = 0) ∧
    (User.ctorDefault.id = 0 ∧ User.ctorDefault.active = false) ∧
    (GameMap.ctorDefault.mapId = 0 ∧ GameMap.ctorDefault.difficulty = 0 ∧
      GameMap.ctorDefault.maxPlayers = 0 ∧ GameMap.ctorDefault.isRanked = false ∧
      GameMap.ctorDefault.terrain = [] ∧ GameMap.ctorDefault.objectPlacement = [] ∧
      GameMap.ctorDefault.tags = []) ∧
    (ComplexSignal.ctorDefault.timestamp = 0 ∧ ComplexSignal.ctorDefault.gain = 0.0 ∧
      ComplexSignal.ctorDefault.isValid = false ∧ ComplexSignal.ctorDefault.rawWaveform = [] ∧
      ComplexSignal.ctorDefault.spectrogram = [] ∧
      ComplexSignal.ctorDefault.frequencyBands = []) ∧
    (FinancialPortfolio.ctorDefault.totalValue = 0.0 ∧
      FinancialPortfolio.ctorDefault.isManaged = false ∧
      FinancialPortfolio.ctorDefault.assetAllocation = [] ∧
      FinancialPortfolio.ctorDefault.historicalReturns = [] ∧
      FinancialPortfolio.ctorDefault.riskMatrix = []) ∧
    (NeuralNetworkConfig.ctorDefault.configId = 0 ∧
      NeuralNetworkConfig.ctorDefault.learningRate = 0.01 ∧
      NeuralNetworkConfig.ctorDefault.epochs = 0 ∧
      NeuralNetworkConfig.ctorDefault.isTraining = false ∧
      NeuralNetworkConfig.ctorDefault.layerSizes = [] ∧
      NeuralNetworkConfig.ctorDefault.weights = [] ∧
      NeuralNetworkConfig.ctorDefault.biases = []) ∧
    (WarehouseLayout.ctorDefault.id = 0 ∧ WarehouseLayout.ctorDefault.capacity = 0 ∧
      WarehouseLayout.ctorDefault.isActive = false ∧ WarehouseLayout.ctorDefault.grid = [] ∧
      WarehouseLayout.ctorDefault.temperatureMap = []) := by
  decide

/-- C3 (`User.toString` format).  For every `User` the projection is
`User{id=` decimal(id) `, username='` username `', email='` email
`', active=` `true` or `false` `}`, where decimal(id) is the base-10
numeral of the absolute value, preceded by `-` for a negative id.  The
scenario `User(7,"ada","ada@x")` renders as stated, before and after
`deactivate()`. -/
theorem user_toString_format :
    (∀ u : User,
      u.toString = "User\x7bid=" ++ to_string u.id ++ ", username='" ++ u.username ++
        "', email='" ++ u.email ++ "', active=" ++ (if u.active then "true" else "false") ++
        "\x7d") ∧
    (∀ n : Nat, to_string (n : Int) = Nat.repr n) ∧
    (∀ n : Nat, to_string (-((n + 1 : Nat) : Int)) = "-" ++ Nat.repr (n + 1)) ∧
    (User.ctor 7 "ada" "ada@x").toString =
      "User\x7bid=7, username='ada', email='ada@x', active=true\x7d" ∧
    ((User.ctor 7 "ada" "ada@x").deactivate []).1.toString =
      "User\x7bid=7, username='ada', email='ada@x', active=false\x7d" ∧
    (User.ctor (-12) "" "").toString =
      "User\x7bid=-12, username='', email='', active=true\x7d" := by
  refine ⟨fun u => ?_, fun _ => rfl, fun _ => rfl, by decide, by decide, by decide⟩
  simp only [User.toString, String.append_assoc]
  rfl

/-- C4 (`User.active` state rule).  A value-constructed `User` is active, a
default-constructed one is not; from any state `activate()` leaves the
record active and `deactivate()` leaves it inactive. -/
theorem user_active_rule :
    (∀ (id : Int) (username email : String), (User.ctor id username email).isActive = true) ∧
    User.ctorDefault.isActive = false ∧
    (∀ (u : User) (cout : Sink), (u.activate cout).1.isActive = true) ∧
    (∀ (u : User) (cout : Sink), (u.deactivate cout).1.isActive = false) :=
  ⟨fun _ _ _ => rfl, rfl, fun _ _ => rfl, fun _ _ => rfl⟩

/-- C5 (`activate` and `deactivate` are idempotent and alternate).  From
any state the record after two calls of `activate()` is the record after
one, likewise for `deactivate()`; after `activate(); deactivate()` the
record is inactive and after `deactivate(); activate()` it is active. -/
theorem user_activate_deactivate_idempotent :
    (∀ (u : User) (cout : Sink),
      (User.run [User.Op.activate, User.Op.activate] (u, cout)).1 =
        (User.run [User.Op.activate] (u, cout)).1) ∧
    (∀ (u : User) (cout : Sink),
      (User.run [User.Op.deactivate, User.Op.deactivate] (u, cout)).1 =
        (User.run [User.Op.deactivate] (u, cout)).1) ∧
    (∀ (u : User) (cout : Sink),
      (User.run [User.Op.activate, User.Op.deactivate] (u, cout)).1.isActive = false) ∧
    (∀ (u : User) (cout : Sink),
      (User.run [User.Op.deactivate, User.Op.activate] (u, cout)).1.isActive = true) :=
  ⟨fun _ _ => rfl, fun _ _ => rfl, fun _ _ => rfl, fun _ _ => rfl⟩

/-- C6 (`User` log lines).  With the sink as the sequence of lines written:
`activate()` appends the one line `User <username> activated.` and
`deactivate()` the one line `User <username> deactivated.`, with the
username held at the time of the call (after `setUsername(n)` the line
names `n`); the constructors and every other member function leave the sink
as it is, so that a sequence of calls adds one line for each `activate` or
`deactivate` in it.  `User(7,"ada","ada@x")` followed by `deactivate()`
writes exactly `User ada deactivated.`. -/
theorem user_log_lines :
    (∀ (u : User) (cout : Sink),
      (u.activate cout).2 = cout ++ ["User " ++ u.username ++ " activated."]) ∧
    (∀ (u : User) (cout : Sink),
      (u.deactivate cout).2 = cout ++ ["User " ++ u.username ++ " deactivated."]) ∧
    (∀ (u : User) (n : String) (cout : Sink),
      (User.run [User.Op.setUsername n, User.Op.activate] (u, cout)).2 =
        cout ++ ["User " ++ n ++ " activated."]) ∧
    (∀ (u : User) (n : String) (cout : Sink),
      (User.run [User.Op.setUsername n, User.Op.deactivate] (u, cout)).2 =
        cout ++ ["User " ++ n ++ " deactivated."]) ∧
    (∀ (new : User.New) (cout : Sink), (new.apply cout).2 = cout) ∧
    (∀ (op : User.Op) (u : User) (cout : Sink),
      op ≠ User.Op.activate → op ≠ User.Op.deactivate → (op.apply (u, cout)).2 = cout) ∧
    (∀ (ops : List User.Op) (u : User) (cout : Sink),
      (User.run ops (u, cout)).2.length =
        cout.length + (ops.filter
          (fun op => decide (op = User.Op.activate ∨ op = User.Op.deactivate))).length) ∧
    (User.run [User.Op.deactivate] ((User.New.value 7 "ada" "ada@x").apply [])).2 =
      ["User ada deactivated."] := by
  refine ⟨fun _ _ => rfl, fun _ _ => rfl, fun _ _ _ => rfl, fun _ _ _ => rfl, ?_, ?_,
    fun ops u cout => User.run_sink_length ops (u, cout), by decide⟩
  · intro new cout
    cases new <;> rfl
  · intro op u cout hact hdeact
    cases op <;> first | rfl | exact absurd rfl hact | exact absurd rfl hdeact

/-- C6 witness: a setter call and a reader call leave a non-empty sink as it is. -/
theorem user_log_lines_witness :
    ((User.Op.setEmail "ada@y").apply (User.ctor 7 "ada" "ada@x", ["User ada activated."])).2 =
        ["User ada activated."] ∧
    (User.Op.toString.apply (User.ctor 7 "ada" "ada@x", ["User ada activated."])).2 =
        ["User ada activated."] :=
  ⟨user_log_lines.2.2.2.2.2.1 (User.Op.setEmail "ada@y") (User.ctor 7 "ada" "ada@x")
      ["User ada activated."] (by decide) (by decide),
    user_log_lines.2.2.2.2.2.1 User.Op.toString (User.ctor 7 "ada" "ada@x")
      ["User ada activated."] (by decide) (by decide)⟩


/-- C7 (identifier immutability).  For every record of the catalog, in every
state reached from the value constructor or from the default constructor by
any finite sequence of calls of its setters (for `User` of any of its public
member functions, `activate` and `deactivate` included), the identifier
reader returns the value fixed at construction: the constructor argument,
or `0` (the empty string for a textual identifier) after default
construction. -/
theorem identifier_immutable :
    (∀ (id : Int) (title : String) (ops : List Category.Op),
      (Category.run ops (Category.ctor id title)).getId = id) ∧
    (∀ ops : List Category.Op, (Category.run ops Category.ctorDefault).getId = 0) ∧
    (∀ (id : Int) (name : String) (price : Double) (inStock : Bool) (ops : List Product.Op),
      (Product.run ops (Product.ctor id name price inStock)).getId = id) ∧
    (∀ ops : List Product.Op, (Product.run ops Product.ctorDefault).getId = 0) ∧
    (∀ (orderId : String) (totalAmount : Double) (itemCount : Int) (ops : List Order.Op),
      (Order.run ops (Order.ctor orderId totalAmount itemCount)).getOrderId = orderId) ∧
    (∀ ops : List Order.Op, (Order.run ops Order.ctorDefault).getOrderId = "") ∧
    (∀ (number : String) (date : String) (paid : Bool) (ops : List Invoice.Op),
      (Invoice.run ops (Invoice.ctor number date paid)).getInvoiceNumber = number) ∧
    (∀ ops : List Invoice.Op, (Invoice.run ops Invoice.ctorDefault).getInvoiceNumber = "") ∧
    (∀ (id : Int) (first : String) (last : String) (email : String) (age : Int)
        (ops : List Customer.Op),
      (Customer.run ops (Customer.ctor id first last email age)).getCustomerId = id) ∧
    (∀ ops : List Customer.Op, (Customer.run ops Customer.ctorDefault).getCustomerId = 0) ∧
    (∀ (id : Int) (username : String) (email : String) (ops : List User.Op) (cout : Sink),
      (User.run ops (User.ctor id username email, cout)).1.getId = id) ∧
    (∀ (ops : List User.Op) (cout : Sink),
      (User.run ops (User.ctorDefault, cout)).1.getId = 0) ∧
    (∀ (id : Int) (name : String) (terrain : List (List Int)) (diff : Int) (maxP : Int)
        (ranked : Bool) (ops : List GameMap.Op),
      (GameMap.run ops (GameMap.ctor id name terrain diff maxP ranked)).getMapId = id) ∧
    (∀ ops : List GameMap.Op, (GameMap.run ops GameMap.ctorDefault).getMapId = 0) ∧
    (∀ (id : String) (time : Int) (wave : List Double) (spec : List (List Double))
        (bands : List Float32) (valid : Bool) (device : String) (gain : Double)
        (ops : List ComplexSignal.Op),
      (ComplexSignal.run ops
        (ComplexSignal.ctor id time wave spec bands valid device gain)).getSignalId = id) ∧
    (∀ ops : List ComplexSignal.Op,
      (ComplexSignal.run ops ComplexSignal.ctorDefault).getSignalId = "") ∧
    (∀ (id : String) (owner : String) (value : Double) (ops : List FinancialPortfolio.Op),
      (FinancialPortfolio.run ops (FinancialPortfolio.ctor id owner value)).getPortfolioId = id) ∧
    (∀ ops : List FinancialPortfolio.Op,
      (FinancialPortfolio.run ops FinancialPortfolio.ctorDefault).getPortfolioId = "") ∧
    (∀ (id : Int) (layers : List Int) (lr : Double) (opt : String)
        (ops : List NeuralNetworkConfig.Op),
      (NeuralNetworkConfig.run ops (NeuralNetworkConfig.ctor id layers lr opt)).getConfigId = id) ∧
    (∀ ops : List NeuralNetworkConfig.Op,
      (NeuralNetworkConfig.run ops NeuralNetworkConfig.ctorDefault).getConfigId = 0) ∧
    (∀ (id : Int) (zone : String) (g : List (List (List Int))) (t : List (List Double))
        (active : Bool) (manager : String) (capacity : Int) (ops : List WarehouseLayout.Op),
      (WarehouseLayout.run ops
        (WarehouseLayout.ctor id zone g t active manager capacity)).getId = id) ∧
    (∀ ops : List WarehouseLayout.Op,
      (WarehouseLayout.run ops WarehouseLayout.ctorDefault).getId = 0) := by
  refine ⟨?_, ?_, ?_, ?_, ?_, ?_, ?_, ?_, ?_, ?_, ?_, ?_, ?_, ?_, ?_, ?_, ?_, ?_, ?_, ?_, ?_, ?_⟩
  · intro id title ops
    exact foldl_reader_const _ Category.getId
      (fun s op => by cases op; rfl) ops _
  · intro ops
    exact foldl_reader_const _ Category.getId
      (fun s op => by cases op; rfl) ops _
  · intro id name price inStock ops
    exact foldl_reader_const _ Product.getId
      (fun s op => by cases op <;> rfl) ops _
  · intro ops
    exact foldl_reader_const _ Product.getId
      (fun s op => by cases op <;> rfl) ops _
  · intro orderId totalAmount itemCount ops
    exact foldl_reader_const _ Order.getOrderId
      (fun s op => by cases op <;> rfl) ops _
  · intro ops
    exact foldl_reader_const _ Order.getOrderId
      (fun s op => by cases op <;> rfl) ops _
  · intro number date paid ops
    exact foldl_reader_const _ Invoice.getInvoiceNumber
      (fun s op => by cases op; rfl) ops _
  · intro ops
    exact foldl_reader_const _ Invoice.getInvoiceNumber
      (fun s op => by cases op; rfl) ops _
  · intro id first last email age ops
    exact foldl_reader_const _ Customer.getCustomerId
      (fun s op => by cases op <;> rfl) ops _
  · intro ops
    exact foldl_reader_const _ Customer.getCustomerId
      (fun s op => by cases op <;> rfl) ops _
  · intro id username email ops cout
    exact foldl_reader_const _ (fun s : User × Sink => User.getId s.1)
      (fun s op => by cases op <;> rfl) ops _
  · intro ops cout
    exact foldl_reader_const _ (fun s : User × Sink => User.getId s.1)
      (fun s op => by cases op <;> rfl) ops _
  · intro id name terrain diff maxP ranked ops
    exact foldl_reader_const _ GameMap.getMapId
      (fun s op => by cases op <;> rfl) ops _
  · intro ops
    exact foldl_reader_const _ GameMap.getMapId
      (fun s op => by cases op <;> rfl) ops _
  · intro id time wave spec bands valid device gain ops
    exact foldl_reader_const _ ComplexSignal.getSignalId
      (fun s op => by cases op <;> rfl) ops _
  · intro ops
    exact foldl_reader_const _ ComplexSignal.getSignalId
      (fun s op => by cases op <;> rfl) ops _
  · intro id owner value ops
    exact foldl_reader_const _ FinancialPortfolio.getPortfolioId
      (fun s op => by cases op <;> rfl) ops _
  · intro ops
    exact foldl_reader_const _ FinancialPortfolio.getPortfolioId
      (fun s op => by cases op <;> rfl) ops _
  · intro id layers lr opt ops
    exact foldl_reader_const _ NeuralNetworkConfig.getConfigId
      (fun s op => by cases op <;> rfl) ops _
  · intro ops
    exact foldl_reader_const _ NeuralNetworkConfig.getConfigId
      (fun s op => by cases op <;> rfl) ops _
  · intro id zone g t active manager capacity ops
    exact foldl_reader_const _ WarehouseLayout.getId
      (fun s op => by cases op <;> rfl) ops _
  · intro ops
    exact foldl_reader_const _ WarehouseLayout.getId
      (fun s op => by cases op <;> rfl) ops _


/-- C8 (`FinancialPortfolio` construction defaults).  For every id, owner
and value, `FinancialPortfolio(id, owner, value)` has currency `USD`,
`isManaged = true`, `totalValue = value` and empty `assetAllocation`,
`historicalReturns` and `riskMatrix`; the default-constructed record has
`isManaged = false` and `totalValue = 0`.  The scenario
`FinancialPortfolio("P1","Alice",1000.0)` reads accordingly. -/
theorem financialPortfolio_construction :
    (∀ (id owner : String) (value : Double),
      (FinancialPortfolio.ctor id owner value).getCurrency = "USD" ∧
      (FinancialPortfolio.ctor id owner value).isManaged = true ∧
      (FinancialPortfolio.ctor id owner value).getTotalValue = value ∧
      (FinancialPortfolio.ctor id owner value).assetAllocation = [] ∧
      (FinancialPortfolio.ctor id owner value).getHistoricalReturns = [] ∧
      (FinancialPortfolio.ctor id owner value).getRiskMatrix = []) ∧
    (FinancialPortfolio.ctorDefault.isManaged = false ∧
      FinancialPortfolio.ctorDefault.getTotalValue = 0.0) ∧
    ((FinancialPortfolio.ctor "P1" "Alice" 1000.0).getCurrency = "USD" ∧
      (FinancialPortfolio.ctor "P1" "Alice" 1000.0).getHistoricalReturns = [] ∧
      (FinancialPortfolio.ctor "P1" "Alice" 1000.0).getRiskMatrix = [] ∧
      (FinancialPortfolio.ctor "P1" "Alice" 1000.0).getTotalValue = 1000.0) :=
  ⟨fun _ _ _ => ⟨rfl, rfl, rfl, rfl, rfl, rfl⟩, ⟨rfl, rfl⟩, rfl, rfl, rfl, rfl⟩

/-- C9 (`NeuralNetworkConfig` construction defaults).  For every id, layers,
lr and opt, `NeuralNetworkConfig(id, layers, lr, opt)` has `epochs = 100`,
`isTraining = false`, `layerSizes = layers`, `learningRate = lr`,
`optimizer = opt` and empty `weights` and `biases`; the default-constructed
record has `learningRate = 0.01` (the `double` written `0.01`), `epochs = 0`,
`configId = 0` and `isTraining = false`.  The scenario
`NeuralNetworkConfig(1,[3,4,1],0.05,"adam")` reads accordingly. -/
theorem neuralNetworkConfig_construction :
    (∀ (id : Int) (layers : List Int) (lr : Double) (opt : String),
      (NeuralNetworkConfig.ctor id layers lr opt).epochs = 100 ∧
      (NeuralNetworkConfig.ctor id layers lr opt).getIsTraining = false ∧
      (NeuralNetworkConfig.ctor id layers lr opt).layerSizes = layers ∧
      (NeuralNetworkConfig.ctor id layers lr opt).getLearningRate = lr ∧
      (NeuralNetworkConfig.ctor id layers lr opt).getOptimizer = opt ∧
      (NeuralNetworkConfig.ctor id layers lr opt).getWeights = [] ∧
      (NeuralNetworkConfig.ctor id layers lr opt).getBiases = []) ∧
    (NeuralNetworkConfig.ctorDefault.getLearningRate = 0.01 ∧
      NeuralNetworkConfig.ctorDefault.epochs = 0 ∧
      NeuralNetworkConfig.ctorDefault.getConfigId = 0 ∧
      NeuralNetworkConfig.ctorDefault.getIsTraining = false) ∧
    ((NeuralNetworkConfig.ctor 1 [3, 4, 1] 0.05 "adam").epochs = 100 ∧
      (NeuralNetworkConfig.ctor 1 [3, 4, 1] 0.05 "adam").getIsTraining = false ∧
      (NeuralNetworkConfig.ctor 1 [3, 4, 1] 0.05 "adam").getWeights = [] ∧
      (NeuralNetworkConfig.ctor 1 [3, 4, 1] 0.05 "adam").getBiases = [] ∧
      (NeuralNetworkConfig.ctor 1 [3, 4, 1] 0.05 "adam").layerSizes = [3, 4, 1] ∧
      (NeuralNetworkConfig.ctor 1 [3, 4, 1] 0.05 "adam").getLearningRate = 0.05) :=
  ⟨fun _ _ _ _ => ⟨rfl, rfl, rfl, rfl, rfl, rfl, rfl⟩, ⟨rfl, rfl, rfl, rfl⟩,
    rfl, rfl, rfl, rfl, rfl, rfl⟩


/-- C10 (setters accept every input verbatim).  Every setter is a total
function of the record and of a value of the attribute's type, with no
error result; for every setter whose attribute has a reader, every record
state and every value, the reader returns exactly that value after the
call: negative ages and prices, empty strings and empty or ragged nested
sequences included.  `Product(42,"widget",9.5,true).setPrice(10.0)` reads
back `10.0` and `setAge(-1)` reads back `-1`. -/
theorem setter_reader_verbatim :
    (∀ (s : Category) (x : String), (s.setTitle x).getTitle = x) ∧
    (∀ (s : Product) (x : String), (s.setName x).getName = x) ∧
    (∀ (s : Product) (x : Double), (s.setPrice x).getPrice = x) ∧
    (∀ (s : Product) (x : Bool), (s.setInStock x).isInStock = x) ∧
    (∀ (s : Order) (x : Double), (s.setTotalAmount x).getTotalAmount = x) ∧
    (∀ (s : Order) (x : Int), (s.setItemCount x).getItemCount = x) ∧
    (∀ (s : Invoice) (x : Bool), (s.setPaid x).getIsPaid = x) ∧
    (∀ (s : Customer) (x : String), (s.setEmail x).getEmail = x) ∧
    (∀ (s : Customer) (x : Int), (s.setAge x).getAge = x) ∧
    (∀ (s : User) (x : String), (s.setUsername x).getUsername = x) ∧
    (∀ (s : User) (x : String), (s.setEmail x).getEmail = x) ∧
    (∀ (s : GameMap) (x : List (List Int)), (s.setTerrain x).getTerrain = x) ∧
    (∀ (s : ComplexSignal) (x : List (List Double)), (s.setSpectrogram x).getSpectrogram = x) ∧
    (∀ (s : FinancialPortfolio) (x : List (List Double)),
      (s.setHistoricalReturns x).getHistoricalReturns = x) ∧
    (∀ (s : FinancialPortfolio) (x : List (List Float32)), (s.setRiskMatrix x).getRiskMatrix = x) ∧
    (∀ (s : FinancialPortfolio) (x : Double), (s.setTotalValue x).getTotalValue = x) ∧
    (∀ (s : NeuralNetworkConfig) (x : List (List (List Double))), (s.setWeights x).getWeights = x) ∧
    (∀ (s : NeuralNetworkConfig) (x : List (List Double)), (s.setBiases x).getBiases = x) ∧
    (∀ (s : NeuralNetworkConfig) (x : Bool), (s.setIsTraining x).getIsTraining = x) ∧
    (∀ (s : WarehouseLayout) (x : String), (s.setZoneName x).getZoneName = x) ∧
    (∀ (s : WarehouseLayout) (x : List (List (List Int))), (s.setGrid x).getGrid = x) ∧
    (∀ (s : WarehouseLayout) (x : List (List Double)),
      (s.setTemperatureMap x).getTemperatureMap = x) ∧
    ((Product.ctor 42 "widget" 9.5 true).setPrice 10.0).getPrice = 10.0 ∧
    ((Customer.ctor 1 "Ada" "Lovelace" "ada@x" 36).setAge (-1)).getAge = -1 ∧
    ((Product.ctor 42 "widget" 9.5 true).setPrice (-3.25)).getPrice = -3.25 ∧
    ((Customer.ctor 1 "Ada" "Lovelace" "ada@x" 36).setEmail "").getEmail = "" ∧
    (WarehouseLayout.ctorDefault.setGrid [[[1, 2], []], [], [[3]]]).getGrid =
      [[[1, 2], []], [], [[3]]] := by
  refine ⟨fun _ _ => rfl, fun _ _ => rfl, fun _ _ => rfl, fun _ _ => rfl, fun _ _ => rfl,
    fun _ _ => rfl, fun _ _ => rfl, fun _ _ => rfl, fun _ _ => rfl, fun _ _ => rfl,
    fun _ _ => rfl, fun _ _ => rfl, fun _ _ => rfl, fun _ _ => rfl, fun _ _ => rfl,
    fun _ _ => rfl, fun _ _ => rfl, fun _ _ => rfl, fun _ _ => rfl, fun _ _ => rfl,
    fun _ _ => rfl, fun _ _ => rfl, by decide, by decide, by decide, by decide, by decide⟩


/-- C11 (setter frame condition).  For every record state and every setter,
the call leaves every field other than the setter's own, readable or not, at
the value it had before.  `User.activate()` and `User.deactivate()` leave
`id`, `username` and `email` as they are.  In particular `Product.setPrice`
keeps what `getId()`, `getName()` and `isInStock()` return, and
`Product(42,"widget",9.5,true)` after `setPrice(10.0)` reads
`(42,"widget",10.0,true)`. -/
theorem setter_frame :
    (∀ (s : Category) (x : String),
      (s.setTitle x).id = s.id) ∧
    (∀ (s : Product) (x : String),
      (s.setName x).id = s.id ∧ (s.setName x).price = s.price ∧
      (s.setName x).inStock = s.inStock) ∧
    (∀ (s : Product) (x : Double),
      (s.setPrice x).id = s.id ∧ (s.setPrice x).name = s.name ∧
      (s.setPrice x).inStock = s.inStock) ∧
    (∀ (s : Product) (x : Bool),
      (s.setInStock x).id = s.id ∧ (s.setInStock x).name = s.name ∧
      (s.setInStock x).price = s.price) ∧
    (∀ (s : Order) (x : Double),
      (s.setTotalAmount x).orderId = s.orderId ∧ (s.setTotalAmount x).itemCount = s.itemCount) ∧
    (∀ (s : Order) (x : Int),
      (s.setItemCount x).orderId = s.orderId ∧ (s.setItemCount x).totalAmount = s.totalAmount) ∧
    (∀ (s : Invoice) (x : Bool),
      (s.setPaid x).invoiceNumber = s.invoiceNumber ∧ (s.setPaid x).issueDate = s.issueDate) ∧
    (∀ (s : Customer) (x : String),
      (s.setEmail x).customerId = s.customerId ∧ (s.setEmail x).firstName = s.firstName ∧
      (s.setEmail x).lastName = s.lastName ∧ (s.setEmail x).age = s.age) ∧
    (∀ (s : Customer) (x : Int),
      (s.setAge x).customerId = s.customerId ∧ (s.setAge x).firstName = s.firstName ∧
      (s.setAge x).lastName = s.lastName ∧ (s.setAge x).email = s.email) ∧
    (∀ (s : User) (x : String),
      (s.setUsername x).id = s.id ∧ (s.setUsername x).email = s.email ∧
      (s.setUsername x).active = s.active) ∧
    (∀ (s : User) (x : String),
      (s.setEmail x).id = s.id ∧ (s.setEmail x).username = s.username ∧
      (s.setEmail x).active = s.active) ∧
    (∀ (u : User) (cout : Sink),
      (u.activate cout).1.id = u.id ∧ (u.activate cout).1.username = u.username ∧
      (u.activate cout).1.email = u.email) ∧
    (∀ (u : User) (cout : Sink),
      (u.deactivate cout).1.id = u.id ∧ (u.deactivate cout).1.username = u.username ∧
      (u.deactivate cout).1.email = u.email) ∧
    (∀ (s : GameMap) (x : List (List Int)),
      (s.setTerrain x).mapId = s.mapId ∧ (s.setTerrain x).name = s.name ∧
      (s.setTerrain x).objectPlacement = s.objectPlacement ∧
      (s.setTerrain x).difficulty = s.difficulty ∧
      (s.setTerrain x).maxPlayers = s.maxPlayers ∧ (s.setTerrain x).isRanked = s.isRanked ∧
      (s.setTerrain x).tags = s.tags) ∧
    (∀ (s : GameMap) (x : List String),
      (s.setTags x).mapId = s.mapId ∧ (s.setTags x).name = s.name ∧
      (s.setTags x).terrain = s.terrain ∧ (s.setTags x).objectPlacement = s.objectPlacement ∧
      (s.setTags x).difficulty = s.difficulty ∧ (s.setTags x).maxPlayers = s.maxPlayers ∧
      (s.setTags x).isRanked = s.isRanked) ∧
    (∀ (s : ComplexSignal) (x : List (List Double)),
      (s.setSpectrogram x).signalId = s.signalId ∧
      (s.setSpectrogram x).timestamp = s.timestamp ∧
      (s.setSpectrogram x).rawWaveform = s.rawWaveform ∧
      (s.setSpectrogram x).frequencyBands = s.frequencyBands ∧
      (s.setSpectrogram x).isValid = s.isValid ∧
      (s.setSpectrogram x).sourceDevice = s.sourceDevice ∧ (s.setSpectrogram x).gain = s.gain) ∧
    (∀ (s : ComplexSignal) (x : Double),
      (s.setGain x).signalId = s.signalId ∧ (s.setGain x).timestamp = s.timestamp ∧
      (s.setGain x).rawWaveform = s.rawWaveform ∧ (s.setGain x).spectrogram = s.spectrogram ∧
      (s.setGain x).frequencyBands = s.frequencyBands ∧ (s.setGain x).isValid = s.isValid ∧
      (s.setGain x).sourceDevice = s.sourceDevice) ∧
    (∀ (s : FinancialPortfolio) (x : List (List Double)),
      (s.setHistoricalReturns x).portfolioId = s.portfolioId ∧
      (s.setHistoricalReturns x).ownerName = s.ownerName ∧
      (s.setHistoricalReturns x).assetAllocation = s.assetAllocation ∧
      (s.setHistoricalReturns x).riskMatrix = s.riskMatrix ∧
      (s.setHistoricalReturns x).totalValue = s.totalValue ∧
      (s.setHistoricalReturns x).lastUpdated = s.lastUpdated ∧
      (s.setHistoricalReturns x).isManaged = s.isManaged ∧
      (s.setHistoricalReturns x).currency = s.currency) ∧
    (∀ (s : FinancialPortfolio) (x : List (List Float32)),
      (s.setRiskMatrix x).portfolioId = s.portfolioId ∧
      (s.setRiskMatrix x).ownerName = s.ownerName ∧
      (s.setRiskMatrix x).assetAllocation = s.assetAllocation ∧
      (s.setRiskMatrix x).historicalReturns = s.historicalReturns ∧
      (s.setRiskMatrix x).totalValue = s.totalValue ∧
      (s.setRiskMatrix x).lastUpdated = s.lastUpdated ∧
      (s.setRiskMatrix x).isManaged = s.isManaged ∧ (s.setRiskMatrix x).currency = s.currency) ∧
    (∀ (s : FinancialPortfolio) (x : Double),
      (s.setTotalValue x).portfolioId = s.portfolioId ∧
      (s.setTotalValue x).ownerName = s.ownerName ∧
      (s.setTotalValue x).assetAllocation = s.assetAllocation ∧
      (s.setTotalValue x).historicalReturns = s.historicalReturns ∧
      (s.setTotalValue x).riskMatrix = s.riskMatrix ∧
      (s.setTotalValue x).lastUpdated = s.lastUpdated ∧
      (s.setTotalValue x).isManaged = s.isManaged ∧ (s.setTotalValue x).currency = s.currency) ∧
    (∀ (s : NeuralNetworkConfig) (x : List (List (List Double))),
      (s.setWeights x).configId = s.configId ∧ (s.setWeights x).layerSizes = s.layerSizes ∧
      (s.setWeights x).biases = s.biases ∧ (s.setWeights x).learningRate = s.learningRate ∧
      (s.setWeights x).optimizer = s.optimizer ∧ (s.setWeights x).epochs = s.epochs ∧
      (s.setWeights x).isTraining = s.isTraining) ∧
    (∀ (s : NeuralNetworkConfig) (x : List (List Double)),
      (s.setBiases x).configId = s.configId ∧ (s.setBiases x).layerSizes = s.layerSizes ∧
      (s.setBiases x).weights = s.weights ∧ (s.setBiases x).learningRate = s.learningRate ∧
      (s.setBiases x).optimizer = s.optimizer ∧ (s.setBiases x).epochs = s.epochs ∧
      (s.setBiases x).isTraining = s.isTraining) ∧
    (∀ (s : NeuralNetworkConfig) (x : Bool),
      (s.setIsTraining x).configId = s.configId ∧
      (s.setIsTraining x).layerSizes = s.layerSizes ∧
      (s.setIsTraining x).weights = s.weights ∧ (s.setIsTraining x).biases = s.biases ∧
      (s.setIsTraining x).learningRate = s.learningRate ∧
      (s.setIsTraining x).optimizer = s.optimizer ∧ (s.setIsTraining x).epochs = s.epochs) ∧
    (∀ (s : WarehouseLayout) (x : String),
      (s.setZoneName x).id = s.id ∧ (s.setZoneName x).grid = s.grid ∧
      (s.setZoneName x).temperatureMap = s.temperatureMap ∧
      (s.setZoneName x).isActive = s.isActive ∧
      (s.setZoneName x).managerName = s.managerName ∧ (s.setZoneName x).capacity = s.capacity) ∧
    (∀ (s : WarehouseLayout) (x : List (List (List Int))),
      (s.setGrid x).id = s.id ∧ (s.setGrid x).zoneName = s.zoneName ∧
      (s.setGrid x).temperatureMap = s.temperatureMap ∧ (s.setGrid x).isActive = s.isActive ∧
      (s.setGrid x).managerName = s.managerName ∧ (s.setGrid x).capacity = s.capacity) ∧
    (∀ (s : WarehouseLayout) (x : List (List Double)),
      (s.setTemperatureMap x).id = s.id ∧ (s.setTemperatureMap x).zoneName = s.zoneName ∧
      (s.setTemperatureMap x).grid = s.grid ∧ (s.setTemperatureMap x).isActive = s.isActive ∧
      (s.setTemperatureMap x).managerName = s.managerName ∧
      (s.setTemperatureMap x).capacity = s.capacity) ∧
    (∀ (p : Product) (x : Double),
      (p.setPrice x).getId = p.getId ∧ (p.setPrice x).getName = p.getName ∧
      (p.setPrice x).isInStock = p.isInStock) ∧
    ((Product.ctor 42 "widget" 9.5 true).setPrice 10.0).readers = (42, "widget", 10.0, true) :=
  ⟨fun _ _ => rfl, fun _ _ => ⟨rfl, rfl, rfl⟩, fun _ _ => ⟨rfl, rfl, rfl⟩,
    fun _ _ => ⟨rfl, rfl, rfl⟩, fun _ _ => ⟨rfl, rfl⟩, fun _ _ => ⟨rfl, rfl⟩,
    fun _ _ => ⟨rfl, rfl⟩, fun _ _ => ⟨rfl, rfl, rfl, rfl⟩, fun _ _ => ⟨rfl, rfl, rfl, rfl⟩,
    fun _ _ => ⟨rfl, rfl, rfl⟩, fun _ _ => ⟨rfl, rfl, rfl⟩, fun _ _ => ⟨rfl, rfl, rfl⟩,
    fun _ _ => ⟨rfl, rfl, rfl⟩, fun _ _ => ⟨rfl, rfl, rfl, rfl, rfl, rfl, rfl⟩,
    fun _ _ => ⟨rfl, rfl, rfl, rfl, rfl, rfl, rfl⟩,
    fun _ _ => ⟨rfl, rfl, rfl, rfl, rfl, rfl, rfl⟩,
    fun _ _ => ⟨rfl, rfl, rfl, rfl, rfl, rfl, rfl⟩,
    fun _ _ => ⟨rfl, rfl, rfl, rfl, rfl, rfl, rfl, rfl⟩,
    fun _ _ => ⟨rfl, rfl, rfl, rfl, rfl, rfl, rfl, rfl⟩,
    fun _ _ => ⟨rfl, rfl, rfl, rfl, rfl, rfl, rfl, rfl⟩,
    fun _ _ => ⟨rfl, rfl, rfl, rfl, rfl, rfl, rfl⟩,
    fun _ _ => ⟨rfl, rfl, rfl, rfl, rfl, rfl, rfl⟩,
    fun _ _ => ⟨rfl, rfl, rfl, rfl, rfl, rfl, rfl⟩, fun _ _ => ⟨rfl, rfl, rfl, rfl, rfl, rfl⟩,
    fun _ _ => ⟨rfl, rfl, rfl, rfl, rfl, rfl⟩, fun _ _ => ⟨rfl, rfl, rfl, rfl, rfl, rfl⟩,
    fun _ _ => ⟨rfl, rfl, rfl⟩, by decide⟩


/-- C12 (mutator idempotence).  For every record state, every setter and
every argument, the record after two calls of the setter with that argument
equals, field for field, the record after one call.
`Invoice("INV-1","2024-01-01",false)` after `setPaid(true)` and after
`setPaid(true); setPaid(true)` is the same record, with `getIsPaid() = true`
and the invoice number and issue date of the constructor. -/
theorem setter_idempotent :
    (∀ (s : Category) (x : String), (s.setTitle x).setTitle x = s.setTitle x) ∧
    (∀ (s : Product) (x : String), (s.setName x).setName x = s.setName x) ∧
    (∀ (s : Product) (x : Double), (s.setPrice x).setPrice x = s.setPrice x) ∧
    (∀ (s : Product) (x : Bool), (s.setInStock x).setInStock x = s.setInStock x) ∧
    (∀ (s : Order) (x : Double), (s.setTotalAmount x).setTotalAmount x = s.setTotalAmount x) ∧
    (∀ (s : Order) (x : Int), (s.setItemCount x).setItemCount x = s.setItemCount x) ∧
    (∀ (s : Invoice) (x : Bool), (s.setPaid x).setPaid x = s.setPaid x) ∧
    (∀ (s : Customer) (x : String), (s.setEmail x).setEmail x = s.setEmail x) ∧
    (∀ (s : Customer) (x : Int), (s.setAge x).setAge x = s.setAge x) ∧
    (∀ (s : User) (x : String), (s.setUsername x).setUsername x = s.setUsername x) ∧
    (∀ (s : User) (x : String), (s.setEmail x).setEmail x = s.setEmail x) ∧
    (∀ (s : GameMap) (x : List (List Int)), (s.setTerrain x).setTerrain x = s.setTerrain x) ∧
    (∀ (s : GameMap) (x : List String), (s.setTags x).setTags x = s.setTags x) ∧
    (∀ (s : ComplexSignal) (x : List (List Double)),
      (s.setSpectrogram x).setSpectrogram x = s.setSpectrogram x) ∧
    (∀ (s : ComplexSignal) (x : Double), (s.setGain x).setGain x = s.setGain x) ∧
    (∀ (s : FinancialPortfolio) (x : List (List Double)),
      (s.setHistoricalReturns x).setHistoricalReturns x = s.setHistoricalReturns x) ∧
    (∀ (s : FinancialPortfolio) (x : List (List Float32)),
      (s.setRiskMatrix x).setRiskMatrix x = s.setRiskMatrix x) ∧
    (∀ (s : FinancialPortfolio) (x : Double),
      (s.setTotalValue x).setTotalValue x = s.setTotalValue x) ∧
    (∀ (s : NeuralNetworkConfig) (x : List (List (List Double))),
      (s.setWeights x).setWeights x = s.setWeights x) ∧
    (∀ (s : NeuralNetworkConfig) (x : List (List Double)),
      (s.setBiases x).setBiases x = s.setBiases x) ∧
    (∀ (s : NeuralNetworkConfig) (x : Bool),
      (s.setIsTraining x).setIsTraining x = s.setIsTraining x) ∧
    (∀ (s : WarehouseLayout) (x : String), (s.setZoneName x).setZoneName x = s.setZoneName x) ∧
    (∀ (s : WarehouseLayout) (x : List (List (List Int))), (s.setGrid x).setGrid x = s.setGrid x) ∧
    (∀ (s : WarehouseLayout) (x : List (List Double)),
      (s.setTemperatureMap x).setTemperatureMap x = s.setTemperatureMap x) ∧
    (((Invoice.ctor "INV-1" "2024-01-01" false).setPaid true).setPaid true =
        (Invoice.ctor "INV-1" "2024-01-01" false).setPaid true ∧
      ((Invoice.ctor "INV-1" "2024-01-01" false).setPaid true).readers =
        ("INV-1", "2024-01-01", true) ∧
      (((Invoice.ctor "INV-1" "2024-01-01" false).setPaid true).setPaid true).readers =
        ("INV-1", "2024-01-01", true)) :=
  ⟨fun _ _ => rfl, fun _ _ => rfl, fun _ _ => rfl, fun _ _ => rfl, fun _ _ => rfl,
    fun _ _ => rfl, fun _ _ => rfl, fun _ _ => rfl, fun _ _ => rfl, fun _ _ => rfl,
    fun _ _ => rfl, fun _ _ => rfl, fun _ _ => rfl, fun _ _ => rfl, fun _ _ => rfl,
    fun _ _ => rfl, fun _ _ => rfl, fun _ _ => rfl, fun _ _ => rfl, fun _ _ => rfl,
    fun _ _ => rfl, fun _ _ => rfl, fun _ _ => rfl, fun _ _ => rfl, by decide⟩


/-- C13 (construction is deterministic).  For every record of the catalog,
two instances built by the value constructor from the same argument tuple,
and likewise two default-constructed instances, agree on every reader after
the same sequence of calls has been made on both (the empty sequence
included), whatever the two storages held before construction: each
constructor initialises every member that a reader returns, and no call
reads anything but the record and its arguments.  For `User`, whose
`activate` and `deactivate` use `std::cout`, the two instances agree whatever
the two sinks hold.  Two orders built from `("O-1", 19.5, 2)`, one in storage
left over from another order and one in zeroed storage, both read
`("O-1", 19.5, 3)` after `setItemCount(3)`. -/
theorem construction_deterministic :
    (∀ (mem₁ mem₂ : Category) (id : Int) (title : String) (ops : List Category.Op),
      (Category.run ops (Category.construct mem₁ id title)).readers =
        (Category.run ops (Category.construct mem₂ id title)).readers) ∧
    (∀ (mem₁ mem₂ : Category) (ops : List Category.Op),
      (Category.run ops (Category.constructDefault mem₁)).readers =
        (Category.run ops (Category.constructDefault mem₂)).readers) ∧
    (∀ (mem₁ mem₂ : Product) (id : Int) (name : String) (price : Double) (inStock : Bool)
        (ops : List Product.Op),
      (Product.run ops (Product.construct mem₁ id name price inStock)).readers =
        (Product.run ops (Product.construct mem₂ id name price inStock)).readers) ∧
    (∀ (mem₁ mem₂ : Product) (ops : List Product.Op),
      (Product.run ops (Product.constructDefault mem₁)).readers =
        (Product.run ops (Product.constructDefault mem₂)).readers) ∧
    (∀ (mem₁ mem₂ : Order) (orderId : String) (totalAmount : Double) (itemCount : Int)
        (ops : List Order.Op),
      (Order.run ops (Order.construct mem₁ orderId totalAmount itemCount)).readers =
        (Order.run ops (Order.construct mem₂ orderId totalAmount itemCount)).readers) ∧
    (∀ (mem₁ mem₂ : Order) (ops : List Order.Op),
      (Order.run ops (Order.constructDefault mem₁)).readers =
        (Order.run ops (Order.constructDefault mem₂)).readers) ∧
    (∀ (mem₁ mem₂ : Invoice) (number : String) (date : String) (paid : Bool)
        (ops : List Invoice.Op),
      (Invoice.run ops (Invoice.construct mem₁ number date paid)).readers =
        (Invoice.run ops (Invoice.construct mem₂ number date paid)).readers) ∧
    (∀ (mem₁ mem₂ : Invoice) (ops : List Invoice.Op),
      (Invoice.run ops (Invoice.constructDefault mem₁)).readers =
        (Invoice.run ops (Invoice.constructDefault mem₂)).readers) ∧
    (∀ (mem₁ mem₂ : Customer) (id : Int) (first : String) (last : String) (email : String)
        (age : Int) (ops : List Customer.Op),
      (Customer.run ops (Customer.construct mem₁ id first last email age)).readers =
        (Customer.run ops (Customer.construct mem₂ id first last email age)).readers) ∧
    (∀ (mem₁ mem₂ : Customer) (ops : List Customer.Op),
      (Customer.run ops (Customer.constructDefault mem₁)).readers =
        (Customer.run ops (Customer.constructDefault mem₂)).readers) ∧
    (∀ (mem₁ mem₂ : User) (id : Int) (username : String) (email : String) (ops : List User.Op)
        (cout₁ cout₂ : Sink),
      (User.run ops (User.construct mem₁ id username email, cout₁)).1.readers =
        (User.run ops (User.construct mem₂ id username email, cout₂)).1.readers) ∧
    (∀ (mem₁ mem₂ : User) (ops : List User.Op) (cout₁ cout₂ : Sink),
      (User.run ops (User.constructDefault mem₁, cout₁)).1.readers =
        (User.run ops (User.constructDefault mem₂, cout₂)).1.readers) ∧
    (∀ (mem₁ mem₂ : GameMap) (id : Int) (name : String) (terrain : List (List Int)) (diff : Int)
        (maxP : Int) (ranked : Bool) (ops : List GameMap.Op),
      (GameMap.run ops (GameMap.construct mem₁ id name terrain diff maxP ranked)).readers =
        (GameMap.run ops (GameMap.construct mem₂ id name terrain diff maxP ranked)).readers) ∧
    (∀ (mem₁ mem₂ : GameMap) (ops : List GameMap.Op),
      (GameMap.run ops (GameMap.constructDefault mem₁)).readers =
        (GameMap.run ops (GameMap.constructDefault mem₂)).readers) ∧
    (∀ (mem₁ mem₂ : ComplexSignal) (id : String) (time : Int) (wave : List Double)
        (spec : List (List Double)) (bands : List Float32) (valid : Bool) (device : String)
        (gain : Double) (ops : List ComplexSignal.Op),
      (ComplexSignal.run ops
        (ComplexSignal.construct mem₁ id time wave spec bands valid device gain)).readers =
        (ComplexSignal.run ops
          (ComplexSignal.construct mem₂ id time wave spec bands valid device gain)).readers) ∧
    (∀ (mem₁ mem₂ : ComplexSignal) (ops : List ComplexSignal.Op),
      (ComplexSignal.run ops (ComplexSignal.constructDefault mem₁)).readers =
        (ComplexSignal.run ops (ComplexSignal.constructDefault mem₂)).readers) ∧
    (∀ (mem₁ mem₂ : FinancialPortfolio) (id : String) (owner : String) (value : Double)
        (ops : List FinancialPortfolio.Op),
      (FinancialPortfolio.run ops (FinancialPortfolio.construct mem₁ id owner value)).readers =
        (FinancialPortfolio.run ops (FinancialPortfolio.construct mem₂ id owner value)).readers) ∧
    (∀ (mem₁ mem₂ : FinancialPortfolio) (ops : List FinancialPortfolio.Op),
      (FinancialPortfolio.run ops (FinancialPortfolio.constructDefault mem₁)).readers =
        (FinancialPortfolio.run ops (FinancialPortfolio.constructDefault mem₂)).readers) ∧
    (∀ (mem₁ mem₂ : NeuralNetworkConfig) (id : Int) (layers : List Int) (lr : Double)
        (opt : String) (ops : List NeuralNetworkConfig.Op),
      (NeuralNetworkConfig.run ops
        (NeuralNetworkConfig.construct mem₁ id layers lr opt)).readers =
        (NeuralNetworkConfig.run ops
          (NeuralNetworkConfig.construct mem₂ id layers lr opt)).readers) ∧
    (∀ (mem₁ mem₂ : NeuralNetworkConfig) (ops : List NeuralNetworkConfig.Op),
      (NeuralNetworkConfig.run ops (NeuralNetworkConfig.constructDefault mem₁)).readers =
        (NeuralNetworkConfig.run ops (NeuralNetworkConfig.constructDefault mem₂)).readers) ∧
    (∀ (mem₁ mem₂ : WarehouseLayout) (id : Int) (zoneName : String)
        (grid : List (List (List Int))) (temperatureMap : List (List Double)) (isActive : Bool)
        (managerName : String) (capacity : Int) (ops : List WarehouseLayout.Op),
      (WarehouseLayout.run ops
        (WarehouseLayout.construct mem₁ id zoneName grid temperatureMap isActive managerName
          capacity)).readers =
        (WarehouseLayout.run ops
          (WarehouseLayout.construct mem₂ id zoneName grid temperatureMap isActive
            managerName capacity)).readers) ∧
    (∀ (mem₁ mem₂ : WarehouseLayout) (ops : List WarehouseLayout.Op),
      (WarehouseLayout.run ops (WarehouseLayout.constructDefault mem₁)).readers =
        (WarehouseLayout.run ops (WarehouseLayout.constructDefault mem₂)).readers) ∧
    ((Order.run [Order.Op.setItemCount 3]
        (Order.construct (Order.ctor "left over" 7.25 99) "O-1" 19.5 2)).readers =
      (Order.run [Order.Op.setItemCount 3]
        (Order.construct Order.ctorDefault "O-1" 19.5 2)).readers ∧
      (Order.run [Order.Op.setItemCount 3]
        (Order.construct (Order.ctor "left over" 7.25 99) "O-1" 19.5 2)).readers =
        ("O-1", 19.5, 3)) :=
  ⟨fun _ _ _ _ _ => rfl,
    fun _ _ _ => rfl,
    fun _ _ _ _ _ _ _ => rfl,
    fun _ _ _ => rfl,
    fun _ _ _ _ _ _ => rfl,
    fun _ _ _ => rfl,
    fun _ _ _ _ _ _ => rfl,
    fun _ _ _ => rfl,
    fun _ _ _ _ _ _ _ _ => rfl,
    fun _ _ _ => rfl,
    fun _ _ _ _ _ ops _ _ =>
      congrArg User.readers (User.run_record_eq ops _ _ rfl),
    fun _ _ ops _ _ => congrArg User.readers (User.run_record_eq ops _ _ rfl),
    fun _ _ _ _ _ _ _ _ _ => rfl,
    fun _ _ _ => rfl,
    fun _ _ _ _ _ _ _ _ _ _ _ => rfl,
    fun _ _ _ => rfl,
    fun _ _ _ _ _ _ => rfl,
    fun _ _ _ => rfl,
    fun _ _ _ _ _ _ _ => rfl,
    fun _ _ _ => rfl,
    fun _ _ _ _ _ _ _ _ _ _ => rfl,
    fun _ _ _ => rfl,
    by decide⟩


/-- C14 (attributes without a mutator are fixed).  Along any finite sequence
of setter calls: a `NeuralNetworkConfig` built by the value constructor keeps
`epochs = 100` and `layerSizes = layers`, a default-constructed one keeps
`epochs = 0` and empty `layerSizes`; a `FinancialPortfolio` keeps empty
`assetAllocation`, empty `lastUpdated` and the `isManaged` of its
construction (true from the value constructor, false from the default
one); `ComplexSignal.getIsValid()` keeps returning the constructor's `valid`
argument. -/
theorem unmutated_attributes_fixed :
    (∀ (id : Int) (layers : List Int) (lr : Double) (opt : String)
        (ops : List NeuralNetworkConfig.Op),
      (NeuralNetworkConfig.run ops (NeuralNetworkConfig.ctor id layers lr opt)).epochs = 100 ∧
      (NeuralNetworkConfig.run ops
        (NeuralNetworkConfig.ctor id layers lr opt)).layerSizes = layers) ∧
    (∀ ops : List NeuralNetworkConfig.Op,
      (NeuralNetworkConfig.run ops NeuralNetworkConfig.ctorDefault).epochs = 0 ∧
      (NeuralNetworkConfig.run ops NeuralNetworkConfig.ctorDefault).layerSizes = []) ∧
    (∀ (id owner : String) (value : Double) (ops : List FinancialPortfolio.Op),
      (FinancialPortfolio.run ops (FinancialPortfolio.ctor id owner value)).assetAllocation
        = [] ∧
      (FinancialPortfolio.run ops (FinancialPortfolio.ctor id owner value)).lastUpdated = "" ∧
      (FinancialPortfolio.run ops (FinancialPortfolio.ctor id owner value)).isManaged = true) ∧
    (∀ ops : List FinancialPortfolio.Op,
      (FinancialPortfolio.run ops FinancialPortfolio.ctorDefault).assetAllocation = [] ∧
      (FinancialPortfolio.run ops FinancialPortfolio.ctorDefault).lastUpdated = "" ∧
      (FinancialPortfolio.run ops FinancialPortfolio.ctorDefault).isManaged = false) ∧
    (∀ (id : String) (time : Int) (wave : List Double) (spec : List (List Double))
        (bands : List Float32) (valid : Bool) (device : String) (gain : Double)
        (ops : List ComplexSignal.Op),
      (ComplexSignal.run ops
        (ComplexSignal.ctor id time wave spec bands valid device gain)).getIsValid = valid) := by
  refine ⟨fun id layers lr opt ops => ⟨?_, ?_⟩, fun ops => ⟨?_, ?_⟩,
    fun id owner value ops => ⟨?_, ?_, ?_⟩, fun ops => ⟨?_, ?_, ?_⟩, ?_⟩
  · exact foldl_reader_const _ NeuralNetworkConfig.epochs
      (fun s op => by cases op <;> rfl) ops _
  · exact foldl_reader_const _ NeuralNetworkConfig.layerSizes
      (fun s op => by cases op <;> rfl) ops _
  · exact foldl_reader_const _ NeuralNetworkConfig.epochs
      (fun s op => by cases op <;> rfl) ops _
  · exact foldl_reader_const _ NeuralNetworkConfig.layerSizes
      (fun s op => by cases op <;> rfl) ops _
  · exact foldl_reader_const _ FinancialPortfolio.assetAllocation
      (fun s op => by cases op <;> rfl) ops _
  · exact foldl_reader_const _ FinancialPortfolio.lastUpdated
      (fun s op => by cases op <;> rfl) ops _
  · exact foldl_reader_const _ FinancialPortfolio.isManaged
      (fun s op => by cases op <;> rfl) ops _
  · exact foldl_reader_const _ FinancialPortfolio.assetAllocation
      (fun s op => by cases op <;> rfl) ops _
  · exact foldl_reader_const _ FinancialPortfolio.lastUpdated
      (fun s op => by cases op <;> rfl) ops _
  · exact foldl_reader_const _ FinancialPortfolio.isManaged
      (fun s op => by cases op <;> rfl) ops _
  · intro id time wave spec bands valid device gain ops
    exact foldl_reader_const _ ComplexSignal.getIsValid
      (fun s op => by cases op <;> rfl) ops _

/-- C15 (`GameMap.objectPlacement` is always empty).  For every argument
tuple `GameMap(id, name, terrain, diff, maxP, ranked)` has empty
`objectPlacement` and empty `tags`, and in every state reached from either
constructor by any finite sequence of `setTerrain` and `setTags` calls
`getObjectPlacement()` returns the empty sequence. -/
theorem gameMap_objectPlacement_empty :
    (∀ (id : Int) (name : String) (terrain : List (List Int)) (diff maxP : Int)
        (ranked : Bool),
      (GameMap.ctor id name terrain diff maxP ranked).objectPlacement = [] ∧
      (GameMap.ctor id name terrain diff maxP ranked).tags = []) ∧
    (∀ (id : Int) (name : String) (terrain : List (List Int)) (diff maxP : Int)
        (ranked : Bool) (ops : List GameMap.Op),
      (GameMap.run ops (GameMap.ctor id name terrain diff maxP ranked)).getObjectPlacement
        = []) ∧
    (∀ ops : List GameMap.Op, (GameMap.run ops GameMap.ctorDefault).getObjectPlacement = []) := by
  refine ⟨fun _ _ _ _ _ _ => ⟨rfl, rfl⟩, fun id name terrain diff maxP ranked ops => ?_,
    fun ops => ?_⟩
  · exact foldl_reader_const _ GameMap.getObjectPlacement
      (fun s op => by cases op <;> rfl) ops _
  · exact foldl_reader_const _ GameMap.getObjectPlacement
      (fun s op => by cases op <;> rfl) ops _

/-- C16 (`User.toString` is not injective).  Two `User` states with the same
id and the same active flag but different (username, email) pairs have the
same `toString()`, because usernames and emails are embedded unescaped
between single quotes: username `a', email='b` with email `c`, and username
`a` with email `b', email='c`.  Both states are built by the value
constructor, and the second is reached from the first by the two setters. -/
theorem user_toString_not_injective :
    (∃ u v : User, u.id = v.id ∧ u.active = v.active ∧
      (u.username, u.email) ≠ (v.username, v.email) ∧ u.toString = v.toString) ∧
    ((User.ctor 1 "a', email='b" "c").toString = (User.ctor 1 "a" "b', email='c").toString ∧
      (User.ctor 1 "a', email='b" "c").toString =
        "User\x7bid=1, username='a', email='b', email='c', active=true\x7d" ∧
      ((User.ctor 1 "a', email='b" "c").setUsername "a").setEmail "b', email='c" =
        User.ctor 1 "a" "b', email='c") ∧
    ¬ Function.Injective User.toString := by
  refine ⟨⟨User.ctor 1 "a', email='b" "c", User.ctor 1 "a" "b', email='c", rfl, rfl,
    by decide, by decide⟩, ⟨by decide, by decide, by decide⟩, fun hinj => ?_⟩
  have h : User.ctor 1 "a', email='b" "c" = User.ctor 1 "a" "b', email='c" :=
    hinj (by decide)
  exact absurd h (by decide)

/-- C17 (write-only setters are unobservable).  For every `ComplexSignal`
state and every `g`, the six readers return after `setGain(g)` what they
returned before, and for every `GameMap` state and every tag list `t` the
six readers return after `setTags(t)` what they returned before.  Moreover
two states that differ only in `gain` (only in `tags`) agree on all six
readers after any sequence of calls made on both. -/
theorem write_only_setters_unobservable :
    (∀ (s : ComplexSignal) (g : Double),
      (s.setGain g).getSignalId = s.getSignalId ∧
      (s.setGain g).getTimestamp = s.getTimestamp ∧
      (s.setGain g).getRawWaveform = s.getRawWaveform ∧
      (s.setGain g).getSpectrogram = s.getSpectrogram ∧
      (s.setGain g).getIsValid = s.getIsValid ∧
      (s.setGain g).getSourceDevice = s.getSourceDevice) ∧
    (∀ (m : GameMap) (t : List String),
      (m.setTags t).getMapId = m.getMapId ∧
      (m.setTags t).getName = m.getName ∧
      (m.setTags t).getTerrain = m.getTerrain ∧
      (m.setTags t).getObjectPlacement = m.getObjectPlacement ∧
      (m.setTags t).getDifficulty = m.getDifficulty ∧
      (m.setTags t).getIsRanked = m.getIsRanked) ∧
    (∀ (s : ComplexSignal) (g : Double) (ops : List ComplexSignal.Op),
      (ComplexSignal.run ops (s.setGain g)).readers = (ComplexSignal.run ops s).readers) ∧
    (∀ (m : GameMap) (t : List String) (ops : List GameMap.Op),
      (GameMap.run ops (m.setTags t)).readers = (GameMap.run ops m).readers) := by
  refine ⟨fun _ _ => ⟨rfl, rfl, rfl, rfl, rfl, rfl⟩, fun _ _ => ⟨rfl, rfl, rfl, rfl, rfl, rfl⟩,
    fun s g ops => ?_, fun m t ops => ?_⟩
  · have h := congrArg ComplexSignal.readers
      (ComplexSignal.run_setGain ops (s.setGain g) s rfl)
    exact h
  · have h := congrArg GameMap.readers (GameMap.run_setTags ops (m.setTags t) m rfl)
    exact h

/-- C18 (`getCurrency` is decided by the constructor).  In every state
reached from the value constructor by any finite sequence of
`setHistoricalReturns`, `setRiskMatrix` and `setTotalValue` calls
`getCurrency()` returns `USD`; in every state reached from the default
constructor by such a sequence it returns the empty string, which is not
`USD`. -/
theorem financialPortfolio_currency :
    (∀ (id owner : String) (value : Double) (ops : List FinancialPortfolio.Op),
      (FinancialPortfolio.run ops (FinancialPortfolio.ctor id owner value)).getCurrency
        = "USD") ∧
    (∀ ops : List FinancialPortfolio.Op,
      (FinancialPortfolio.run ops FinancialPortfolio.ctorDefault).getCurrency = "") ∧
    (∀ ops : List FinancialPortfolio.Op,
      (FinancialPortfolio.run ops FinancialPortfolio.ctorDefault).getCurrency ≠ "USD") := by
  have hconst : ∀ (ops : List FinancialPortfolio.Op) (s : FinancialPortfolio),
      (FinancialPortfolio.run ops s).getCurrency = s.getCurrency := fun ops s =>
    foldl_reader_const _ FinancialPortfolio.getCurrency
      (fun s op => by cases op <;> rfl) ops s
  refine ⟨fun id owner value ops => hconst ops _, fun ops => hconst ops _, fun ops => ?_⟩
  rw [hconst ops]
  decide

end Hexdef
